import Mathlib

/-!
Verification of the sammy_monitor HTTP monitoring service: a shallow
embedding of the probe scheduler (`src/worker.rs`), the probe client
(`Worker::check_monitor`), and the metrics aggregation store
(`src/metrics.rs`), together with theorems settling the specification
claims about them.

Modelling conventions:
* `Instant` / wall-clock times are natural numbers of seconds; probe
  latencies are natural numbers of milliseconds (`u64` in the source).
* Monitor ids (`uuid::Uuid` in the source) are modelled by `Nat`.  The
  source uses a `Uuid` only through equality and its canonical string
  rendering (which is injective and contains no colon character), so the
  composite string keys the source builds with `format!` — such as
  `"{id}:success"` and `"{id}:{error_type}:{code}"` — are modelled by the
  corresponding tuples.
* The `metrics` crate facade is modelled by an explicit recorder: a
  metric series is identified by its metric family name and label set
  (`SeriesKey`); the macros `counter!` / `gauge!` / `histogram!`
  materialise the series (at its default value) and hand back its key.
* Floating point metric values are modelled by exact rationals.
-/

/-- Monitor identifier: stands for `uuid::Uuid`.  The source only compares
ids for equality and renders them with `to_string()`, which is injective. -/
abbrev Uuid := Nat

/-- Configuration of one monitor, from `src/settings.rs`.  The source
comment on `interval` reads `// in seconds`. -/
structure MonitorConfig where
  id : Uuid
  name : String
  url : String
  interval : Nat
  enabled : Bool
deriving DecidableEq, Repr

/-- The monitor list from the settings file (`src/settings.rs`);
`prometheus_url` plays no role in the scheduler or the store. -/
structure Settings where
  monitors : List MonitorConfig
deriving DecidableEq, Repr

/-- Metadata stored per monitor by the metrics registry
(`src/metrics.rs`, `MonitorMetadata`). -/
structure MonitorMetadata where
  name : String
  url : String
  interval : Nat
deriving DecidableEq, Repr

/-- Result of a single probe (`src/worker.rs`, `MonitorResult`). -/
structure MonitorResult where
  monitor_id : Uuid
  monitor_name : String
  url : String
  success : Bool
  response_time_ms : Nat
  status_code : Option Nat
  error_message : Option String
  timestamp : Nat
deriving DecidableEq, Repr

/-- What the network returned for one HTTP GET: either a response with a
status code (the `Ok(response)` arm of `client.get(..).send().await`) or
a transport-level failure with its rendered error text (the `Err(error)`
arm, `error.to_string()`). -/
inductive HttpResponse where
  | ok (status : Nat)
  | err (msg : String)
deriving DecidableEq, Repr

/-- Rust substring containment, `str::contains(pat)`. -/
def strContains (s pat : String) : Bool := decide (pat.data <:+: s.data)

/-- The http crate `StatusCode::is_success()`: status in 200..=299. -/
def statusIsSuccess (s : Nat) : Bool := 200 ≤ s && s < 300

/-- `Worker::check_monitor` (src/worker.rs lines 127-175) as a function of
the network outcome, the measured end-to-end latency and the timestamp.
It is total: every probe yields a `MonitorResult`, never an error. -/
def check_monitor (monitor : MonitorConfig) (resp : HttpResponse)
    (elapsed_ms : Nat) (timestamp : Nat) : MonitorResult :=
  match resp with
  | .ok status =>
      let success := statusIsSuccess status
      { monitor_id := monitor.id
        monitor_name := monitor.name
        url := monitor.url
        success := success
        response_time_ms := elapsed_ms
        status_code := some status
        error_message :=
          if success then none else some ("HTTP " ++ Nat.repr status)
        timestamp := timestamp }
  | .err msg =>
      { monitor_id := monitor.id
        monitor_name := monitor.name
        url := monitor.url
        success := false
        response_time_ms := elapsed_ms
        status_code := none
        error_message := some msg
        timestamp := timestamp }

/-- The guard `result.error_message.as_ref().map(|msg| msg.contains(pat)).unwrap_or(false)`
used twice in `Worker::record_metrics`. -/
def msgMentions (m : Option String) (pat : String) : Bool :=
  match m with
  | some msg => strContains msg pat
  | none => false

/-- The error classification computed by `Worker::record_metrics`
(src/worker.rs lines 205-223): timeout, then http_error when a status
code is present, then dns_error, then connection_error. -/
def error_type_of (result : MonitorResult) : String :=
  if msgMentions result.error_message "timeout" then "timeout"
  else if result.status_code.isSome then "http_error"
  else if msgMentions result.error_message "dns" then "dns_error"
  else "connection_error"

/-- Modelled from the spec: the classification order the specification
states — timeout, then dns_error, then http_error when a status code
exists, then connection_error. -/
def specErrorType (result : MonitorResult) : String :=
  if msgMentions result.error_message "timeout" then "timeout"
  else if msgMentions result.error_message "dns" then "dns_error"
  else if result.status_code.isSome then "http_error"
  else "connection_error"

/-- Characters that can appear in a message `"HTTP " ++ Nat.repr n`. -/
def httpMsgChars : List Char := "HTP 0123456789abcdef*".data

theorem digitChar_mem_httpMsgChars (d : Nat) (h : d < 10) :
    Nat.digitChar d ∈ httpMsgChars := by
  interval_cases d <;> decide

theorem toDigitsCore_mem (fuel : Nat) :
    ∀ (n : Nat) (ds : List Char), (∀ c ∈ ds, c ∈ httpMsgChars) →
      ∀ c ∈ Nat.toDigitsCore 10 fuel n ds, c ∈ httpMsgChars := by
  induction fuel with
  | zero => intro n ds h c hc; simp only [Nat.toDigitsCore] at hc; exact h c hc
  | succ fuel ih =>
      intro n ds h c hc
      simp only [Nat.toDigitsCore] at hc
      by_cases hz : n / 10 = 0
      · simp only [hz, if_pos] at hc
        rcases List.mem_cons.mp hc with h1 | h1
        · exact h1 ▸ digitChar_mem_httpMsgChars _ (Nat.mod_lt _ (by decide))
        · exact h c h1
      · simp only [hz, if_neg, not_false_iff] at hc
        exact ih _ _ (by
          intro c2 hc2
          rcases List.mem_cons.mp hc2 with h2 | h2
          · exact h2 ▸ digitChar_mem_httpMsgChars _ (Nat.mod_lt _ (by decide))
          · exact h c2 h2) c hc

theorem mem_repr_httpMsgChars (n : Nat) :
    ∀ c ∈ (Nat.repr n).data, c ∈ httpMsgChars := by
  intro c hc
  have : (Nat.repr n).data = Nat.toDigits 10 n := rfl
  rw [this] at hc
  exact toDigitsCore_mem (n + 1) n [] (by intro c hc; cases hc) c hc

theorem mem_httpMsg (n : Nat) :
    ∀ c ∈ ("HTTP " ++ Nat.repr n).data, c ∈ httpMsgChars := by
  intro c hc
  rw [String.data_append] at hc
  rcases List.mem_append.mp hc with h | h
  · have h5 : "HTTP ".data = ['H', 'T', 'T', 'P', ' '] := rfl
    rw [h5] at h
    fin_cases h <;> decide
  · exact mem_repr_httpMsgChars n c h

theorem httpMsg_not_contains (n : Nat) (pat : String) (c : Char)
    (hc : c ∈ pat.data) (hout : c ∉ httpMsgChars) :
    strContains ("HTTP " ++ Nat.repr n) pat = false := by
  unfold strContains
  rw [decide_eq_false_iff_not]
  intro hinf
  exact hout (mem_httpMsg n c (hinf.subset hc))

/-- The due test inside `Worker::check_due_monitors` (src/worker.rs lines
95-102): a monitor is due when it has never run, or when the time since
its last run is at least `interval * 60` seconds (the code comment reads
`// Convert minutes to seconds`, although `src/settings.rs` documents the
`interval` field as seconds).  Times are in seconds. -/
def should_run (last_run : Option Nat) (now : Nat) (interval : Nat) : Bool :=
  match last_run with
  | some t => decide (now - t ≥ interval * 60)
  | none => true

/-- Claim C1: for an enabled target with configured interval I (documented
as seconds in src/settings.rs), a tick selects it as due iff it has no
last-run entry or now minus last-run is at least I.  This fails on the
code: with interval 1 and a last run 30 seconds before now, the claim
says due (30 ≥ 1) but `should_run` says not due, because
src/worker.rs line 98 compares against `interval * 60`; the target only
becomes due 60 seconds after its last run. -/
theorem interval_treated_as_minutes_at_failing_input :
    30 - 0 ≥ 1 ∧ should_run (some 0) 30 1 = false ∧ should_run (some 0) 60 1 = true := by
  decide

/-- Claim C2: for every probe outcome produced by `check_monitor`, the
classification computed by `Worker::record_metrics` (which tests
timeout, then a present status code, then dns) agrees with the order the
spec states (timeout, then dns, then a present status code): whenever a
status code is present the failure text is `"HTTP <code>"`, which cannot
mention dns, so the two orders coincide on probe outcomes. -/
theorem error_classification_matches_spec_order
    (monitor : MonitorConfig) (resp : HttpResponse) (elapsed_ms timestamp : Nat) :
    error_type_of (check_monitor monitor resp elapsed_ms timestamp) =
      specErrorType (check_monitor monitor resp elapsed_ms timestamp) := by
  cases resp with
  | ok status =>
      by_cases hs : statusIsSuccess status
      · simp [check_monitor, error_type_of, specErrorType, msgMentions, hs]
      · simp [check_monitor, error_type_of, specErrorType, msgMentions, hs,
          httpMsg_not_contains status "dns" (Char.ofNat 110) (by decide) (by decide),
          httpMsg_not_contains status "timeout" (Char.ofNat 105) (by decide) (by decide)]
  | err msg =>
      simp only [check_monitor, error_type_of, specErrorType, msgMentions]
      by_cases h1 : strContains msg "timeout" <;> by_cases h2 : strContains msg "dns" <;>
        simp [h1, h2]

/-- Claim C4: a probe always returns a `MonitorResult` (check_monitor is a
total function — transport errors arrive as data in the `err` arm, never
as exceptions); a success-range status yields success = true, any other
status yields success = false with the status code set, a transport
failure yields success = false with no status code, and the measured
latency is recorded in every case. -/
theorem probe_always_returns_outcome
    (monitor : MonitorConfig) (resp : HttpResponse) (elapsed_ms timestamp : Nat) :
    (check_monitor monitor resp elapsed_ms timestamp).response_time_ms = elapsed_ms ∧
    (match resp with
     | .ok status =>
         (check_monitor monitor resp elapsed_ms timestamp).success = statusIsSuccess status ∧
         (check_monitor monitor resp elapsed_ms timestamp).status_code = some status
     | .err _ =>
         (check_monitor monitor resp elapsed_ms timestamp).success = false ∧
         (check_monitor monitor resp elapsed_ms timestamp).status_code = none) := by
  cases resp <;> simp [check_monitor]

/-- Label set shared by every metric family registered for one monitor
(src/metrics.rs: monitor_id, monitor_name, monitor_url,
interval_minutes).  The monitor_id label value is `id.to_string()`,
which is injective, so it is carried as the id itself; likewise
interval_minutes carries the number rendered by `to_string()`. -/
structure BaseLabels where
  monitor_id : Uuid
  monitor_name : String
  monitor_url : String
  interval_minutes : Nat
deriving DecidableEq, Repr

/-- Identity of one metric series in the recorder: metric family plus
label set, mirroring the five families of src/metrics.rs.  The
`failuresTotal` family adds error_type and status_code labels (the
status_code label is a string: the rendered code, or "none"). -/
inductive SeriesKey where
  | responseTimeSeconds (base : BaseLabels)
  | requestsTotal (base : BaseLabels) (status : String)
  | failuresTotal (base : BaseLabels) (error_type : String) (status_code : String)
  | up (base : BaseLabels)
  | lastSuccessTimestamp (base : BaseLabels)
deriving DecidableEq, Repr

/-- The monitor id owning a series (its monitor_id label). -/
def SeriesKey.owner : SeriesKey → Uuid
  | .responseTimeSeconds base => base.monitor_id
  | .requestsTotal base _ => base.monitor_id
  | .failuresTotal base _ _ => base.monitor_id
  | .up base => base.monitor_id
  | .lastSuccessTimestamp base => base.monitor_id

/-- The global recorder installed by the `metrics` crate: the series that
exist, with their current values.  Counters count in naturals, gauges
hold a rational, histograms hold the list of recorded observations. -/
structure Recorder where
  counters : SeriesKey → Option Nat
  gauges : SeriesKey → Option ℚ
  histograms : SeriesKey → Option (List ℚ)

/-- Pointwise map update (`HashMap::insert`). -/
def upd [DecidableEq α] (m : α → Option β) (k : α) (v : β) : α → Option β :=
  fun j => if j = k then some v else m j

/-- The `counter!` macro materialises its series at 0 if absent. -/
def ensureCounter (k : SeriesKey) (r : Recorder) : Recorder :=
  match r.counters k with
  | some _ => r
  | none => { r with counters := upd r.counters k 0 }

/-- The `gauge!` macro materialises its series at 0 if absent. -/
def ensureGauge (k : SeriesKey) (r : Recorder) : Recorder :=
  match r.gauges k with
  | some _ => r
  | none => { r with gauges := upd r.gauges k 0 }

/-- The `histogram!` macro materialises its series (empty) if absent. -/
def ensureHistogram (k : SeriesKey) (r : Recorder) : Recorder :=
  match r.histograms k with
  | some _ => r
  | none => { r with histograms := upd r.histograms k [] }

/-- `Counter::increment(1)` through a handle. -/
def counterIncrement (k : SeriesKey) (r : Recorder) : Recorder :=
  { r with counters := upd r.counters k ((r.counters k).getD 0 + 1) }

/-- `Gauge::set(v)` through a handle. -/
def gaugeSet (k : SeriesKey) (v : ℚ) (r : Recorder) : Recorder :=
  { r with gauges := upd r.gauges k v }

/-- `Histogram::record(v)` through a handle. -/
def histogramRecord (k : SeriesKey) (v : ℚ) (r : Recorder) : Recorder :=
  { r with histograms := upd r.histograms k ((r.histograms k).getD [] ++ [v]) }

/-- The six maps of `MetricsRegistry` (src/metrics.rs lines 12-31).  The
source keys `request_counters` by the string `"{id}:success"` or
`"{id}:failure"` and `failure_counters` by
`"{id}:{error_type}:{status_code.unwrap_or(0)}"`; since a uuid string
contains no colon these keys decompose uniquely, and are modelled as
tuples (the Bool is true for success). -/
structure MetricsRegistry where
  response_time_histograms : Uuid → Option SeriesKey
  request_counters : Uuid × Bool → Option SeriesKey
  failure_counters : Uuid × String × Nat → Option SeriesKey
  monitor_status_gauges : Uuid → Option SeriesKey
  last_success_timestamps : Uuid → Option SeriesKey
  monitor_metadata : Uuid → Option MonitorMetadata

/-- Registry plus the recorder its handles point into. -/
structure MetricsState where
  registry : MetricsRegistry
  recorder : Recorder

/-- `MetricsRegistry::new`: all maps empty. -/
def MetricsRegistry.new : MetricsRegistry :=
  ⟨fun _ => none, fun _ => none, fun _ => none, fun _ => none, fun _ => none, fun _ => none⟩

/-- Fresh recorder: no series exist yet. -/
def Recorder.empty : Recorder := ⟨fun _ => none, fun _ => none, fun _ => none⟩

/-- State at process start. -/
def MetricsState.empty : MetricsState := ⟨MetricsRegistry.new, Recorder.empty⟩

/-- Labels used for every series of monitor `id` registered with `meta`. -/
def baseLabelsOf (id : Uuid) (meta : MonitorMetadata) : BaseLabels :=
  ⟨id, meta.name, meta.url, meta.interval⟩

/-- The status_code label of a failure series:
`status_code.map(|c| c.to_string()).unwrap_or_else(|| "none")`. -/
def statusCodeLabel : Option Nat → String
  | some c => Nat.repr c
  | none => "none"

/-- `MetricsRegistry::register_monitor` (src/metrics.rs lines 53-126):
stores the metadata, materialises the histogram, the success and failure
request counters, the up gauge and the last-success gauge, and stores
their handles.  The source performs these inserts sequentially on the
six distinct maps; the updates commute, so the state is written in one
literal here. -/
def register_monitor (id : Uuid) (meta : MonitorMetadata) (s : MetricsState) : MetricsState :=
  let base := baseLabelsOf id meta
  let hk := SeriesKey.responseTimeSeconds base
  let sk := SeriesKey.requestsTotal base "success"
  let fk := SeriesKey.requestsTotal base "failure"
  let uk := SeriesKey.up base
  let tk := SeriesKey.lastSuccessTimestamp base
  { registry :=
      { monitor_metadata := upd s.registry.monitor_metadata id meta
        response_time_histograms := upd s.registry.response_time_histograms id hk
        request_counters := upd (upd s.registry.request_counters (id, true) sk) (id, false) fk
        failure_counters := s.registry.failure_counters
        monitor_status_gauges := upd s.registry.monitor_status_gauges id uk
        last_success_timestamps := upd s.registry.last_success_timestamps id tk }
    recorder :=
      ensureGauge tk (ensureGauge uk (ensureCounter fk
        (ensureCounter sk (ensureHistogram hk s.recorder)))) }

/-- One `if let Some(histogram) = histograms.get(..)` step: record into
the found histogram, silently skip when absent. -/
def histStep (k : Option SeriesKey) (v : ℚ) (s : MetricsState) : MetricsState :=
  match k with
  | some key => { s with recorder := histogramRecord key v s.recorder }
  | none => s

/-- One `if let Some(counter) = counters.get(..)` step: increment the
found counter, silently skip when absent. -/
def counterStep (k : Option SeriesKey) (s : MetricsState) : MetricsState :=
  match k with
  | some key => { s with recorder := counterIncrement key s.recorder }
  | none => s

/-- One `if let Some(gauge) = gauges.get(..)` step: set the found gauge,
silently skip when absent. -/
def gaugeStep (k : Option SeriesKey) (v : ℚ) (s : MetricsState) : MetricsState :=
  match k with
  | some key => { s with recorder := gaugeSet key v s.recorder }
  | none => s

/-- The failure-type counter block of `record_failure` (src/metrics.rs
lines 188-207): runs only when metadata is present; the map key collapses
an absent status code to 0 (`status_code.unwrap_or(0)`), while the label
string distinguishes "none" from "0" and is fixed by whichever call
creates the series (`entry(..).or_insert_with(..)`), after which the
counter is incremented. -/
def failureTypeStep (id : Uuid) (error_type : String) (status_code : Option Nat)
    (s : MetricsState) : MetricsState :=
  match s.registry.monitor_metadata id with
  | some meta =>
      match s.registry.failure_counters (id, error_type, status_code.getD 0) with
      | some k => { s with recorder := counterIncrement k s.recorder }
      | none =>
          { registry :=
              { s.registry with
                failure_counters :=
                  upd s.registry.failure_counters (id, error_type, status_code.getD 0)
                    (SeriesKey.failuresTotal (baseLabelsOf id meta) error_type
                      (statusCodeLabel status_code)) }
            recorder :=
              counterIncrement
                (SeriesKey.failuresTotal (baseLabelsOf id meta) error_type
                  (statusCodeLabel status_code))
                (ensureCounter
                  (SeriesKey.failuresTotal (baseLabelsOf id meta) error_type
                    (statusCodeLabel status_code)) s.recorder) }
  | none => s

/-- `MetricsRegistry::record_success` (src/metrics.rs lines 129-162).
Each step looks its handle up and silently skips when absent.  `now` is
`SystemTime::now().as_secs()`. -/
def record_success (id : Uuid) (response_time_ms : Nat) (now : Nat)
    (s : MetricsState) : MetricsState :=
  let s1 := histStep (s.registry.response_time_histograms id)
    ((response_time_ms : ℚ) / 1000) s
  let s2 := counterStep (s1.registry.request_counters (id, true)) s1
  let s3 := gaugeStep (s2.registry.monitor_status_gauges id) 1 s2
  gaugeStep (s3.registry.last_success_timestamps id) (now : ℚ) s3

/-- `MetricsRegistry::record_failure` (src/metrics.rs lines 165-215):
histogram, failure request counter, failure-type counter, up gauge to 0. -/
def record_failure (id : Uuid) (response_time_ms : Nat) (error_type : String)
    (status_code : Option Nat) (s : MetricsState) : MetricsState :=
  let s1 := histStep (s.registry.response_time_histograms id)
    ((response_time_ms : ℚ) / 1000) s
  let s2 := counterStep (s1.registry.request_counters (id, false)) s1
  let s3 := failureTypeStep id error_type status_code s2
  gaugeStep (s3.registry.monitor_status_gauges id) 0 s3

/-- `Worker::record_metrics` (src/worker.rs lines 200-232): route a probe
result into the store, classifying failures with `error_type_of`. -/
def record_metrics (result : MonitorResult) (now : Nat) (s : MetricsState) : MetricsState :=
  if result.success then
    record_success result.monitor_id result.response_time_ms now s
  else
    record_failure result.monitor_id result.response_time_ms (error_type_of result)
      result.status_code s

/-- Scheduler state owned by the worker: the configured monitors and the
`last_run_times: HashMap<Uuid, Instant>` map. -/
structure Worker where
  settings : Settings
  last_run_times : Uuid → Option Nat

/-- `Worker::new` (src/worker.rs lines 31-57): registers every configured
monitor — enabled or not — with the metrics registry, and starts with an
empty last-run map. -/
def Worker.new (settings : Settings) (s : MetricsState) : Worker × MetricsState :=
  let s2 := settings.monitors.foldl
    (fun acc monitor =>
      register_monitor monitor.id ⟨monitor.name, monitor.url, monitor.interval⟩ acc) s
  (⟨settings, fun _ => none⟩, s2)

/-- One iteration of the selection loop of `Worker::check_due_monitors`
(src/worker.rs lines 90-108): skip a disabled monitor, test `should_run`
against the (threaded) last-run map, and reserve the slot by writing
`now` into the map when the monitor is selected. -/
def selectStep (now : Nat) (acc : List MonitorConfig × (Uuid → Option Nat))
    (monitor : MonitorConfig) : List MonitorConfig × (Uuid → Option Nat) :=
  if monitor.enabled then
    if should_run (acc.2 monitor.id) now monitor.interval then
      (acc.1 ++ [monitor], upd acc.2 monitor.id now)
    else acc
  else acc

/-- The selection loop of `Worker::check_due_monitors` (src/worker.rs
lines 86-108). -/
def selectDue (monitors : List MonitorConfig) (last_run_times : Uuid → Option Nat)
    (now : Nat) : List MonitorConfig × (Uuid → Option Nat) :=
  monitors.foldl (selectStep now) ([], last_run_times)

/-- One cycle of probing: what the network answers for each monitor, the
measured latency, the `chrono` timestamp stamped on results, and the
`SystemTime` wall clock seconds used by `record_success`. -/
structure ProbeEnv where
  response : Uuid → HttpResponse
  elapsed_ms : Uuid → Nat
  timestamp : Nat
  wallclock : Nat

/-- `Worker::check_due_monitors` (src/worker.rs lines 86-125): select the
due monitors, then probe each and record its result. -/
def check_due_monitors (env : ProbeEnv) (now : Nat) (w : Worker)
    (s : MetricsState) : Worker × MetricsState :=
  let sel := selectDue w.settings.monitors w.last_run_times now
  let s2 := sel.1.foldl
    (fun acc monitor =>
      record_metrics
        (check_monitor monitor (env.response monitor.id) (env.elapsed_ms monitor.id)
          env.timestamp)
        env.wallclock acc) s
  (⟨w.settings, sel.2⟩, s2)

/-- The scheduling loop of `Worker::start`: one `check_due_monitors` per
tick.  Each list entry is one tick: its `Instant` now and its probe
environment. -/
def run_cycles (cycles : List (Nat × ProbeEnv)) (ws : Worker × MetricsState) :
    Worker × MetricsState :=
  cycles.foldl (fun acc c => check_due_monitors c.2 c.1 acc.1 acc.2) ws

/-- One call into the metrics store, for reasoning about call sequences. -/
inductive MetricsOp where
  | reg (id : Uuid) (meta : MonitorMetadata)
  | rsucc (id : Uuid) (response_time_ms : Nat) (now : Nat)
  | rfail (id : Uuid) (response_time_ms : Nat) (error_type : String)
      (status_code : Option Nat)

/-- Interpret one store call. -/
def applyOp (op : MetricsOp) (s : MetricsState) : MetricsState :=
  match op with
  | .reg id meta => register_monitor id meta s
  | .rsucc id ms now => record_success id ms now s
  | .rfail id ms e c => record_failure id ms e c s

/-- Interpret a call sequence, oldest first. -/
def applyOps (ops : List MetricsOp) (s : MetricsState) : MetricsState :=
  ops.foldl (fun acc op => applyOp op acc) s

/-- Does this call register the given id? -/
def MetricsOp.registersId (op : MetricsOp) (id : Uuid) : Bool :=
  match op with
  | .reg j _ => j = id
  | _ => false

/-- Is this call a record (not a registration)? -/
def MetricsOp.isRecord : MetricsOp → Bool
  | .reg _ _ => false
  | .rsucc _ _ _ => true
  | .rfail _ _ _ _ => true

/-- The id has no entry in any registry map that `record_success` or
`record_failure` consults: the state of a target never passed to
`register_monitor`. -/
def Unregistered (id : Uuid) (s : MetricsState) : Prop :=
  s.registry.monitor_metadata id = none ∧
  s.registry.response_time_histograms id = none ∧
  s.registry.request_counters (id, true) = none ∧
  s.registry.request_counters (id, false) = none ∧
  s.registry.monitor_status_gauges id = none ∧
  s.registry.last_success_timestamps id = none

/-- The registry holds exactly the canonical handles created by
`register_monitor id meta` for this id. -/
def RegisteredWith (id : Uuid) (meta : MonitorMetadata) (s : MetricsState) : Prop :=
  s.registry.monitor_metadata id = some meta ∧
  s.registry.response_time_histograms id =
    some (.responseTimeSeconds (baseLabelsOf id meta)) ∧
  s.registry.request_counters (id, true) =
    some (.requestsTotal (baseLabelsOf id meta) "success") ∧
  s.registry.request_counters (id, false) =
    some (.requestsTotal (baseLabelsOf id meta) "failure") ∧
  s.registry.monitor_status_gauges id = some (.up (baseLabelsOf id meta)) ∧
  s.registry.last_success_timestamps id =
    some (.lastSuccessTimestamp (baseLabelsOf id meta))

theorem upd_apply_ne [DecidableEq α] (m : α → Option β) (k j : α) (v : β)
    (h : j ≠ k) : upd m k v j = m j := by
  simp [upd, h]

theorem upd_apply_self [DecidableEq α] (m : α → Option β) (k : α) (v : β) :
    upd m k v k = some v := by
  simp [upd]

theorem upd_eq_self [DecidableEq α] (m : α → Option β) (k : α) (v : β)
    (h : m k = some v) : upd m k v = m := by
  funext j
  by_cases hj : j = k
  · subst hj; rw [upd_apply_self, h]
  · exact upd_apply_ne m k j v hj

theorem metricsState_ext (s t : MetricsState) (h1 : s.registry = t.registry)
    (h2 : s.recorder = t.recorder) : s = t := by
  cases s; cases t; cases h1; cases h2; rfl

theorem recorder_ext (r q : Recorder) (h1 : r.counters = q.counters)
    (h2 : r.gauges = q.gauges) (h3 : r.histograms = q.histograms) : r = q := by
  cases r; cases q; cases h1; cases h2; cases h3; rfl

theorem metricsRegistry_ext (r q : MetricsRegistry)
    (h1 : r.response_time_histograms = q.response_time_histograms)
    (h2 : r.request_counters = q.request_counters)
    (h3 : r.failure_counters = q.failure_counters)
    (h4 : r.monitor_status_gauges = q.monitor_status_gauges)
    (h5 : r.last_success_timestamps = q.last_success_timestamps)
    (h6 : r.monitor_metadata = q.monitor_metadata) : r = q := by
  cases r; cases q
  cases h1; cases h2; cases h3; cases h4; cases h5; cases h6; rfl

theorem histStep_registry (k : Option SeriesKey) (v : ℚ) (s : MetricsState) :
    (histStep k v s).registry = s.registry := by
  cases k <;> rfl

theorem counterStep_registry (k : Option SeriesKey) (s : MetricsState) :
    (counterStep k s).registry = s.registry := by
  cases k <;> rfl

theorem gaugeStep_registry (k : Option SeriesKey) (v : ℚ) (s : MetricsState) :
    (gaugeStep k v s).registry = s.registry := by
  cases k <;> rfl

theorem failureTypeStep_registry_frame (id : Uuid) (e : String) (c : Option Nat)
    (s : MetricsState) :
    (failureTypeStep id e c s).registry.monitor_metadata = s.registry.monitor_metadata ∧
    (failureTypeStep id e c s).registry.response_time_histograms =
      s.registry.response_time_histograms ∧
    (failureTypeStep id e c s).registry.request_counters = s.registry.request_counters ∧
    (failureTypeStep id e c s).registry.monitor_status_gauges =
      s.registry.monitor_status_gauges ∧
    (failureTypeStep id e c s).registry.last_success_timestamps =
      s.registry.last_success_timestamps := by
  unfold failureTypeStep
  cases hm : s.registry.monitor_metadata id with
  | none => exact ⟨rfl, rfl, rfl, rfl, rfl⟩
  | some meta =>
      cases hf : s.registry.failure_counters (id, e, c.getD 0) with
      | none => exact ⟨rfl, rfl, rfl, rfl, rfl⟩
      | some k => exact ⟨rfl, rfl, rfl, rfl, rfl⟩

theorem failureTypeStep_counters_ne (id : Uuid) (e : String) (c : Option Nat)
    (s : MetricsState) (j : Uuid) (hne : j ≠ id) (e2 : String) (c2 : Nat) :
    (failureTypeStep id e c s).registry.failure_counters (j, e2, c2) =
      s.registry.failure_counters (j, e2, c2) := by
  unfold failureTypeStep
  cases hm : s.registry.monitor_metadata id with
  | none => rfl
  | some meta =>
      cases hf : s.registry.failure_counters (id, e, c.getD 0) with
      | none =>
          show upd _ _ _ _ = _
          exact upd_apply_ne _ _ _ _ (by simp [Prod.ext_iff]; intro h; exact absurd h hne)
      | some k => rfl

theorem record_success_registry_eq (id : Uuid) (ms now : Nat) (s : MetricsState) :
    (record_success id ms now s).registry = s.registry := by
  unfold record_success
  rw [gaugeStep_registry, gaugeStep_registry, counterStep_registry, histStep_registry]

theorem record_failure_registry_frame (id : Uuid) (ms : Nat) (e : String)
    (c : Option Nat) (s : MetricsState) :
    (record_failure id ms e c s).registry.monitor_metadata = s.registry.monitor_metadata ∧
    (record_failure id ms e c s).registry.response_time_histograms =
      s.registry.response_time_histograms ∧
    (record_failure id ms e c s).registry.request_counters = s.registry.request_counters ∧
    (record_failure id ms e c s).registry.monitor_status_gauges =
      s.registry.monitor_status_gauges ∧
    (record_failure id ms e c s).registry.last_success_timestamps =
      s.registry.last_success_timestamps := by
  unfold record_failure
  have hs2 := failureTypeStep_registry_frame id e c
    (counterStep ((histStep (s.registry.response_time_histograms id)
      ((ms : ℚ) / 1000) s).registry.request_counters (id, false))
      (histStep (s.registry.response_time_histograms id) ((ms : ℚ) / 1000) s))
  simp only [gaugeStep_registry, counterStep_registry, histStep_registry] at hs2 ⊢
  exact hs2

theorem record_failure_failure_counters_ne (id : Uuid) (ms : Nat) (e : String)
    (c : Option Nat) (s : MetricsState) (j : Uuid) (hne : j ≠ id) (e2 : String) (c2 : Nat) :
    (record_failure id ms e c s).registry.failure_counters (j, e2, c2) =
      s.registry.failure_counters (j, e2, c2) := by
  unfold record_failure
  have hs2 := failureTypeStep_counters_ne id e c
    (counterStep ((histStep (s.registry.response_time_histograms id)
      ((ms : ℚ) / 1000) s).registry.request_counters (id, false))
      (histStep (s.registry.response_time_histograms id) ((ms : ℚ) / 1000) s))
    j hne e2 c2
  simp only [gaugeStep_registry, counterStep_registry, histStep_registry] at hs2 ⊢
  exact hs2

theorem unregistered_preserved (id : Uuid) (op : MetricsOp) (s : MetricsState)
    (hs : Unregistered id s) (hop : op.registersId id = false) :
    Unregistered id (applyOp op s) := by
  obtain ⟨h1, h2, h3, h4, h5, h6⟩ := hs
  cases op with
  | reg j meta =>
      have hne : id ≠ j := by
        intro hji; subst hji
        simp [MetricsOp.registersId] at hop
      refine ⟨?_, ?_, ?_, ?_, ?_, ?_⟩ <;>
        simp only [applyOp, register_monitor]
      · rw [upd_apply_ne _ _ _ _ hne]; exact h1
      · rw [upd_apply_ne _ _ _ _ hne]; exact h2
      · rw [upd_apply_ne _ _ _ _ (show ((id, true) : Uuid × Bool) ≠ (j, false) by
            simp [hne]),
          upd_apply_ne _ _ _ _ (show ((id, true) : Uuid × Bool) ≠ (j, true) by
            simp [hne])]
        exact h3
      · rw [upd_apply_ne _ _ _ _ (show ((id, false) : Uuid × Bool) ≠ (j, false) by
            simp [hne]),
          upd_apply_ne _ _ _ _ (show ((id, false) : Uuid × Bool) ≠ (j, true) by
            simp [hne])]
        exact h4
      · rw [upd_apply_ne _ _ _ _ hne]; exact h5
      · rw [upd_apply_ne _ _ _ _ hne]; exact h6
  | rsucc j ms now =>
      have hr := record_success_registry_eq j ms now s
      exact ⟨by rw [applyOp, hr]; exact h1, by rw [applyOp, hr]; exact h2,
        by rw [applyOp, hr]; exact h3, by rw [applyOp, hr]; exact h4,
        by rw [applyOp, hr]; exact h5, by rw [applyOp, hr]; exact h6⟩
  | rfail j ms e c =>
      have hr := record_failure_registry_frame j ms e c s
      exact ⟨by rw [applyOp, hr.1]; exact h1, by rw [applyOp, hr.2.1]; exact h2,
        by rw [applyOp, hr.2.2.1]; exact h3, by rw [applyOp, hr.2.2.1]; exact h4,
        by rw [applyOp, hr.2.2.2.1]; exact h5, by rw [applyOp, hr.2.2.2.2]; exact h6⟩

theorem applyOps_cons (op : MetricsOp) (ops : List MetricsOp) (s : MetricsState) :
    applyOps (op :: ops) s = applyOps ops (applyOp op s) := by
  simp [applyOps]

theorem unregistered_applyOps (ops : List MetricsOp) (id : Uuid)
    (h : ∀ op ∈ ops, op.registersId id = false) (s : MetricsState)
    (hs : Unregistered id s) : Unregistered id (applyOps ops s) := by
  induction ops generalizing s with
  | nil => exact hs
  | cons op rest ih =>
      rw [applyOps_cons]
      exact ih (fun o ho => h o (List.mem_cons_of_mem _ ho)) _
        (unregistered_preserved id op s hs (h op (List.mem_cons_self _ _)))

theorem unregistered_empty (id : Uuid) : Unregistered id MetricsState.empty :=
  ⟨rfl, rfl, rfl, rfl, rfl, rfl⟩

theorem record_success_unregistered (id : Uuid) (ms now : Nat) (s : MetricsState)
    (h : Unregistered id s) : record_success id ms now s = s := by
  obtain ⟨h1, h2, h3, h4, h5, h6⟩ := h
  simp only [record_success, histStep, counterStep, gaugeStep, h2, h3, h5, h6]

theorem record_failure_unregistered (id : Uuid) (ms : Nat) (e : String)
    (c : Option Nat) (s : MetricsState) (h : Unregistered id s) :
    record_failure id ms e c s = s := by
  obtain ⟨h1, h2, h3, h4, h5, h6⟩ := h
  simp only [record_failure, histStep, counterStep, gaugeStep, failureTypeStep,
    h1, h2, h4, h5]

/-- Claim C3: for a target id never passed to register, record_success and
record_failure are silent no-ops: starting from the empty store and
running any call sequence that never registers the id, a record call for
it returns the state completely unchanged — no panic, no new series
(including no lazily created failure-type counter), and every instrument
of every registered target untouched. -/
theorem record_unregistered_noop (ops : List MetricsOp) (id : Uuid)
    (ms1 ms2 now : Nat) (e : String) (c : Option Nat)
    (h : ∀ op ∈ ops, op.registersId id = false) :
    record_success id ms1 now (applyOps ops MetricsState.empty) =
      applyOps ops MetricsState.empty ∧
    record_failure id ms2 e c (applyOps ops MetricsState.empty) =
      applyOps ops MetricsState.empty := by
  have hu := unregistered_applyOps ops id h MetricsState.empty (unregistered_empty id)
  exact ⟨record_success_unregistered id ms1 now _ hu,
    record_failure_unregistered id ms2 e c _ hu⟩

/-- Witness for C3 at a concrete call sequence: register target 1, then
record against the never-registered target 2. -/
theorem record_unregistered_noop_witness :
    (∀ op ∈ [MetricsOp.reg 1 ⟨"a", "u", 5⟩], op.registersId 2 = false) ∧
    (record_success 2 100 7
        (applyOps [MetricsOp.reg 1 ⟨"a", "u", 5⟩] MetricsState.empty) =
      applyOps [MetricsOp.reg 1 ⟨"a", "u", 5⟩] MetricsState.empty ∧
    record_failure 2 50 "timeout" none
        (applyOps [MetricsOp.reg 1 ⟨"a", "u", 5⟩] MetricsState.empty) =
      applyOps [MetricsOp.reg 1 ⟨"a", "u", 5⟩] MetricsState.empty) :=
  ⟨by decide, record_unregistered_noop [MetricsOp.reg 1 ⟨"a", "u", 5⟩] 2 100 50 7
    "timeout" none (by decide)⟩

/-- Claim C5: for a registered target, record_success records the latency
(milliseconds divided by 1000) into that target's histogram, increments
that target's success counter by exactly 1, sets that target's up gauge
to 1, and sets that target's last-success-timestamp gauge to the current
wall-clock seconds. -/
theorem record_success_effects (id : Uuid) (meta : MonitorMetadata) (ms now : Nat)
    (s : MetricsState) (h : RegisteredWith id meta s) :
    (record_success id ms now s).recorder.histograms
        (.responseTimeSeconds (baseLabelsOf id meta)) =
      some ((s.recorder.histograms
          (.responseTimeSeconds (baseLabelsOf id meta))).getD [] ++ [(ms : ℚ) / 1000]) ∧
    (record_success id ms now s).recorder.counters
        (.requestsTotal (baseLabelsOf id meta) "success") =
      some ((s.recorder.counters
          (.requestsTotal (baseLabelsOf id meta) "success")).getD 0 + 1) ∧
    (record_success id ms now s).recorder.gauges (.up (baseLabelsOf id meta)) = some 1 ∧
    (record_success id ms now s).recorder.gauges
        (.lastSuccessTimestamp (baseLabelsOf id meta)) = some (now : ℚ) := by
  obtain ⟨h1, h2, h3, h4, h5, h6⟩ := h
  simp only [record_success, histStep, counterStep, gaugeStep, h2, h3, h5, h6]
  simp [gaugeSet, counterIncrement, histogramRecord, upd]

/-- Witness for C5: target 1 registered on the empty store, then a
success of 250ms recorded at wall-clock second 99. -/
theorem record_success_effects_witness :
    RegisteredWith 1 ⟨"m", "u", 2⟩ (register_monitor 1 ⟨"m", "u", 2⟩ MetricsState.empty) ∧
    ((record_success 1 250 99
        (register_monitor 1 ⟨"m", "u", 2⟩ MetricsState.empty)).recorder.histograms
        (.responseTimeSeconds (baseLabelsOf 1 ⟨"m", "u", 2⟩)) =
      some (((register_monitor 1 ⟨"m", "u", 2⟩ MetricsState.empty).recorder.histograms
          (.responseTimeSeconds (baseLabelsOf 1 ⟨"m", "u", 2⟩))).getD [] ++
        [(250 : ℚ) / 1000]) ∧
    (record_success 1 250 99
        (register_monitor 1 ⟨"m", "u", 2⟩ MetricsState.empty)).recorder.counters
        (.requestsTotal (baseLabelsOf 1 ⟨"m", "u", 2⟩) "success") =
      some (((register_monitor 1 ⟨"m", "u", 2⟩ MetricsState.empty).recorder.counters
          (.requestsTotal (baseLabelsOf 1 ⟨"m", "u", 2⟩) "success")).getD 0 + 1) ∧
    (record_success 1 250 99
        (register_monitor 1 ⟨"m", "u", 2⟩ MetricsState.empty)).recorder.gauges
        (.up (baseLabelsOf 1 ⟨"m", "u", 2⟩)) = some 1 ∧
    (record_success 1 250 99
        (register_monitor 1 ⟨"m", "u", 2⟩ MetricsState.empty)).recorder.gauges
        (.lastSuccessTimestamp (baseLabelsOf 1 ⟨"m", "u", 2⟩)) = some (99 : ℚ)) :=
  ⟨⟨rfl, rfl, rfl, rfl, rfl, rfl⟩,
    record_success_effects 1 ⟨"m", "u", 2⟩ 250 99
      (register_monitor 1 ⟨"m", "u", 2⟩ MetricsState.empty)
      ⟨rfl, rfl, rfl, rfl, rfl, rfl⟩⟩

theorem ensureCounter_self (k : SeriesKey) (r : Recorder) :
    (ensureCounter k r).counters k = some ((r.counters k).getD 0) := by
  unfold ensureCounter
  cases h : r.counters k <;> simp [h, upd]

theorem ensureCounter_ne (k : SeriesKey) (r : Recorder) (j : SeriesKey) (h : j ≠ k) :
    (ensureCounter k r).counters j = r.counters j := by
  unfold ensureCounter
  cases hk : r.counters k <;> simp [upd, h]

theorem ensureCounter_gauges (k : SeriesKey) (r : Recorder) :
    (ensureCounter k r).gauges = r.gauges := by
  unfold ensureCounter
  cases hk : r.counters k <;> rfl

theorem ensureCounter_histograms (k : SeriesKey) (r : Recorder) :
    (ensureCounter k r).histograms = r.histograms := by
  unfold ensureCounter
  cases hk : r.counters k <;> rfl

/-- Claim C6: for a registered target, record_failure records the latency
into that target's histogram, increments that target's failure counter
by exactly 1, increments — lazily creating on first use — the
failure-type counter keyed by the classification and the status code (or
the sentinel 0 / label "none" when absent) by exactly 1, and sets the up
gauge to 0.  The shape hypothesis states that any stored failure-type
handle is a failures_total series, which holds in every reachable state. -/
theorem record_failure_effects (id : Uuid) (meta : MonitorMetadata) (ms : Nat)
    (e : String) (c : Option Nat) (s : MetricsState)
    (h : RegisteredWith id meta s)
    (hshape : ∀ k, s.registry.failure_counters (id, e, c.getD 0) = some k →
      ∃ b e2 lbl, k = SeriesKey.failuresTotal b e2 lbl) :
    (record_failure id ms e c s).recorder.histograms
        (.responseTimeSeconds (baseLabelsOf id meta)) =
      some ((s.recorder.histograms
          (.responseTimeSeconds (baseLabelsOf id meta))).getD [] ++ [(ms : ℚ) / 1000]) ∧
    (record_failure id ms e c s).recorder.counters
        (.requestsTotal (baseLabelsOf id meta) "failure") =
      some ((s.recorder.counters
          (.requestsTotal (baseLabelsOf id meta) "failure")).getD 0 + 1) ∧
    (record_failure id ms e c s).recorder.gauges (.up (baseLabelsOf id meta)) = some 0 ∧
    (match s.registry.failure_counters (id, e, c.getD 0) with
     | some k =>
         (record_failure id ms e c s).registry.failure_counters (id, e, c.getD 0) =
           some k ∧
         (record_failure id ms e c s).recorder.counters k =
           some ((s.recorder.counters k).getD 0 + 1)
     | none =>
         (record_failure id ms e c s).registry.failure_counters (id, e, c.getD 0) =
           some (.failuresTotal (baseLabelsOf id meta) e (statusCodeLabel c)) ∧
         (record_failure id ms e c s).recorder.counters
             (.failuresTotal (baseLabelsOf id meta) e (statusCodeLabel c)) =
           some ((s.recorder.counters
               (.failuresTotal (baseLabelsOf id meta) e (statusCodeLabel c))).getD 0 + 1)) := by
  obtain ⟨h1, h2, h3, h4, h5, h6⟩ := h
  cases hfc : s.registry.failure_counters (id, e, c.getD 0) with
  | none =>
      simp only [record_failure, histStep, counterStep, failureTypeStep, gaugeStep,
        h1, h2, h4, h5, hfc]
      simp [gaugeSet, counterIncrement, histogramRecord, upd, upd_apply_self,
        ensureCounter_self, ensureCounter_ne, ensureCounter_gauges, ensureCounter_histograms]
  | some k =>
      obtain ⟨b, e2, lbl, rfl⟩ := hshape k hfc
      simp only [record_failure, histStep, counterStep, failureTypeStep, gaugeStep,
        h1, h2, h4, h5, hfc]
      simp [gaugeSet, counterIncrement, histogramRecord, upd]

/-- Witness for C6: target 1 registered on the empty store, then a 404
failure of 50ms recorded; the failure-type series is created lazily. -/
theorem record_failure_effects_witness :
    RegisteredWith 1 ⟨"m", "u", 2⟩ (register_monitor 1 ⟨"m", "u", 2⟩ MetricsState.empty) ∧
    (∀ k, (register_monitor 1 ⟨"m", "u", 2⟩ MetricsState.empty).registry.failure_counters
        (1, "http_error", (some 404).getD 0) = some k →
      ∃ b e2 lbl, k = SeriesKey.failuresTotal b e2 lbl) ∧
    ((record_failure 1 50 "http_error" (some 404)
        (register_monitor 1 ⟨"m", "u", 2⟩ MetricsState.empty)).recorder.histograms
        (.responseTimeSeconds (baseLabelsOf 1 ⟨"m", "u", 2⟩)) =
      some (((register_monitor 1 ⟨"m", "u", 2⟩ MetricsState.empty).recorder.histograms
          (.responseTimeSeconds (baseLabelsOf 1 ⟨"m", "u", 2⟩))).getD [] ++
        [(50 : ℚ) / 1000]) ∧
    (record_failure 1 50 "http_error" (some 404)
        (register_monitor 1 ⟨"m", "u", 2⟩ MetricsState.empty)).recorder.counters
        (.requestsTotal (baseLabelsOf 1 ⟨"m", "u", 2⟩) "failure") =
      some (((register_monitor 1 ⟨"m", "u", 2⟩ MetricsState.empty).recorder.counters
          (.requestsTotal (baseLabelsOf 1 ⟨"m", "u", 2⟩) "failure")).getD 0 + 1) ∧
    (record_failure 1 50 "http_error" (some 404)
        (register_monitor 1 ⟨"m", "u", 2⟩ MetricsState.empty)).recorder.gauges
        (.up (baseLabelsOf 1 ⟨"m", "u", 2⟩)) = some 0 ∧
    (match (register_monitor 1 ⟨"m", "u", 2⟩ MetricsState.empty).registry.failure_counters
        (1, "http_error", (some 404).getD 0) with
     | some k =>
         (record_failure 1 50 "http_error" (some 404)
             (register_monitor 1 ⟨"m", "u", 2⟩ MetricsState.empty)).registry.failure_counters
             (1, "http_error", (some 404).getD 0) = some k ∧
         (record_failure 1 50 "http_error" (some 404)
             (register_monitor 1 ⟨"m", "u", 2⟩ MetricsState.empty)).recorder.counters k =
           some (((register_monitor 1 ⟨"m", "u", 2⟩
               MetricsState.empty).recorder.counters k).getD 0 + 1)
     | none =>
         (record_failure 1 50 "http_error" (some 404)
             (register_monitor 1 ⟨"m", "u", 2⟩ MetricsState.empty)).registry.failure_counters
             (1, "http_error", (some 404).getD 0) =
           some (.failuresTotal (baseLabelsOf 1 ⟨"m", "u", 2⟩) "http_error"
             (statusCodeLabel (some 404))) ∧
         (record_failure 1 50 "http_error" (some 404)
             (register_monitor 1 ⟨"m", "u", 2⟩ MetricsState.empty)).recorder.counters
             (.failuresTotal (baseLabelsOf 1 ⟨"m", "u", 2⟩) "http_error"
               (statusCodeLabel (some 404))) =
           some (((register_monitor 1 ⟨"m", "u", 2⟩ MetricsState.empty).recorder.counters
               (.failuresTotal (baseLabelsOf 1 ⟨"m", "u", 2⟩) "http_error"
                 (statusCodeLabel (some 404)))).getD 0 + 1))) :=
  ⟨⟨rfl, rfl, rfl, rfl, rfl, rfl⟩, fun _ hk => Option.noConfusion hk,
    record_failure_effects 1 ⟨"m", "u", 2⟩ 50 "http_error" (some 404)
      (register_monitor 1 ⟨"m", "u", 2⟩ MetricsState.empty)
      ⟨rfl, rfl, rfl, rfl, rfl, rfl⟩ (fun _ hk => Option.noConfusion hk)⟩

/-- Claim C10: for a registered target and a fixed classification, a
record_failure with no status code and one with status code 0 increment
the same underlying failure-type counter, because the registry key
collapses an absent code to 0 (`status_code.unwrap_or(0)`); the label
set of the created series (status_code "none" versus "0") is fixed by
whichever of the two calls happens first. -/
theorem failure_counter_status_code_collapse (id : Uuid) (meta : MonitorMetadata)
    (ms1 ms2 : Nat) (e : String) (s : MetricsState)
    (h : RegisteredWith id meta s)
    (hfc : s.registry.failure_counters (id, e, 0) = none)
    (hc1 : s.recorder.counters (.failuresTotal (baseLabelsOf id meta) e "none") = none)
    (hc2 : s.recorder.counters (.failuresTotal (baseLabelsOf id meta) e "0") = none) :
    ((record_failure id ms2 e (some 0)
        (record_failure id ms1 e none s)).registry.failure_counters (id, e, 0) =
      some (.failuresTotal (baseLabelsOf id meta) e "none") ∧
    (record_failure id ms2 e (some 0)
        (record_failure id ms1 e none s)).recorder.counters
        (.failuresTotal (baseLabelsOf id meta) e "none") = some 2) ∧
    ((record_failure id ms2 e none
        (record_failure id ms1 e (some 0) s)).registry.failure_counters (id, e, 0) =
      some (.failuresTotal (baseLabelsOf id meta) e "0") ∧
    (record_failure id ms2 e none
        (record_failure id ms1 e (some 0) s)).recorder.counters
        (.failuresTotal (baseLabelsOf id meta) e "0") = some 2) := by
  obtain ⟨h1, h2, h3, h4, h5, h6⟩ := h
  have h0 : Nat.repr 0 = "0" := rfl
  constructor
  · simp only [record_failure, histStep, counterStep, failureTypeStep, gaugeStep,
      Option.getD_none, Option.getD_some, statusCodeLabel, h0, h1, h2, h4, h5, hfc]
    simp [upd, counterIncrement, histogramRecord, gaugeSet, ensureCounter_self,
      ensureCounter_ne, ensureCounter_gauges, ensureCounter_histograms, hc1, hc2,
      h1, h2, h4, h5, hfc]
  · simp only [record_failure, histStep, counterStep, failureTypeStep, gaugeStep,
      Option.getD_none, Option.getD_some, statusCodeLabel, h0, h1, h2, h4, h5, hfc]
    simp [upd, counterIncrement, histogramRecord, gaugeSet, ensureCounter_self,
      ensureCounter_ne, ensureCounter_gauges, ensureCounter_histograms, hc1, hc2,
      h1, h2, h4, h5, hfc]

/-- Witness for C10: target 1 registered on the empty store, then the
"timeout" failure-type counter hit once with no status code and once
with status code 0, in both orders. -/
theorem failure_counter_status_code_collapse_witness :
    RegisteredWith 1 ⟨"m", "u", 2⟩ (register_monitor 1 ⟨"m", "u", 2⟩ MetricsState.empty) ∧
    (register_monitor 1 ⟨"m", "u", 2⟩
        MetricsState.empty).registry.failure_counters (1, "timeout", 0) = none ∧
    (register_monitor 1 ⟨"m", "u", 2⟩ MetricsState.empty).recorder.counters
        (.failuresTotal (baseLabelsOf 1 ⟨"m", "u", 2⟩) "timeout" "none") = none ∧
    (register_monitor 1 ⟨"m", "u", 2⟩ MetricsState.empty).recorder.counters
        (.failuresTotal (baseLabelsOf 1 ⟨"m", "u", 2⟩) "timeout" "0") = none ∧
    (((record_failure 1 6 "timeout" (some 0)
        (record_failure 1 5 "timeout" none
          (register_monitor 1 ⟨"m", "u", 2⟩ MetricsState.empty))).registry.failure_counters
        (1, "timeout", 0) =
      some (.failuresTotal (baseLabelsOf 1 ⟨"m", "u", 2⟩) "timeout" "none") ∧
    (record_failure 1 6 "timeout" (some 0)
        (record_failure 1 5 "timeout" none
          (register_monitor 1 ⟨"m", "u", 2⟩ MetricsState.empty))).recorder.counters
        (.failuresTotal (baseLabelsOf 1 ⟨"m", "u", 2⟩) "timeout" "none") = some 2) ∧
    ((record_failure 1 6 "timeout" none
        (record_failure 1 5 "timeout" (some 0)
          (register_monitor 1 ⟨"m", "u", 2⟩ MetricsState.empty))).registry.failure_counters
        (1, "timeout", 0) =
      some (.failuresTotal (baseLabelsOf 1 ⟨"m", "u", 2⟩) "timeout" "0") ∧
    (record_failure 1 6 "timeout" none
        (record_failure 1 5 "timeout" (some 0)
          (register_monitor 1 ⟨"m", "u", 2⟩ MetricsState.empty))).recorder.counters
        (.failuresTotal (baseLabelsOf 1 ⟨"m", "u", 2⟩) "timeout" "0") = some 2)) :=
  ⟨⟨rfl, rfl, rfl, rfl, rfl, rfl⟩, rfl, rfl, rfl,
    failure_counter_status_code_collapse 1 ⟨"m", "u", 2⟩ 5 6 "timeout"
      (register_monitor 1 ⟨"m", "u", 2⟩ MetricsState.empty)
      ⟨rfl, rfl, rfl, rfl, rfl, rfl⟩ rfl rfl rfl⟩

theorem upd_isSome_mono [DecidableEq α] (m : α → Option β) (k j : α) (v : β)
    (h : (m j).isSome = true) : (upd m k v j).isSome = true := by
  by_cases hj : j = k <;> simp [upd, hj, h]

/-- The five series created for a registered monitor exist in the
recorder. -/
def SeriesLive (id : Uuid) (meta : MonitorMetadata) (s : MetricsState) : Prop :=
  (s.recorder.histograms (.responseTimeSeconds (baseLabelsOf id meta))).isSome = true ∧
  (s.recorder.counters (.requestsTotal (baseLabelsOf id meta) "success")).isSome = true ∧
  (s.recorder.counters (.requestsTotal (baseLabelsOf id meta) "failure")).isSome = true ∧
  (s.recorder.gauges (.up (baseLabelsOf id meta))).isSome = true ∧
  (s.recorder.gauges (.lastSuccessTimestamp (baseLabelsOf id meta))).isSome = true

theorem register_registers (id : Uuid) (meta : MonitorMetadata) (s : MetricsState) :
    RegisteredWith id meta (register_monitor id meta s) := by
  refine ⟨?_, ?_, ?_, ?_, ?_, ?_⟩ <;> simp [register_monitor, upd]

theorem ensureCounter_isSome (k : SeriesKey) (r : Recorder) :
    ((ensureCounter k r).counters k).isSome = true := by
  cases h : r.counters k <;> simp [ensureCounter, h, upd]

theorem ensureGauge_isSome (k : SeriesKey) (r : Recorder) :
    ((ensureGauge k r).gauges k).isSome = true := by
  cases h : r.gauges k <;> simp [ensureGauge, h, upd]

theorem ensureHistogram_isSome (k : SeriesKey) (r : Recorder) :
    ((ensureHistogram k r).histograms k).isSome = true := by
  cases h : r.histograms k <;> simp [ensureHistogram, h, upd]

theorem ensureGauge_counters (k : SeriesKey) (r : Recorder) :
    (ensureGauge k r).counters = r.counters := by
  cases h : r.gauges k <;> simp [ensureGauge, h]

theorem ensureGauge_histograms (k : SeriesKey) (r : Recorder) :
    (ensureGauge k r).histograms = r.histograms := by
  cases h : r.gauges k <;> simp [ensureGauge, h]

theorem ensureGauge_gauges_isSome (k j : SeriesKey) (r : Recorder)
    (h : (r.gauges j).isSome = true) : ((ensureGauge k r).gauges j).isSome = true := by
  cases hk : r.gauges k <;> simp [ensureGauge, hk]
  · exact upd_isSome_mono _ _ _ _ h
  · exact h

theorem ensureCounter_counters_isSome (k j : SeriesKey) (r : Recorder)
    (h : (r.counters j).isSome = true) : ((ensureCounter k r).counters j).isSome = true := by
  cases hk : r.counters k <;> simp [ensureCounter, hk]
  · exact upd_isSome_mono _ _ _ _ h
  · exact h

theorem ensureHistogram_counters (k : SeriesKey) (r : Recorder) :
    (ensureHistogram k r).counters = r.counters := by
  cases h : r.histograms k <;> simp [ensureHistogram, h]

theorem ensureHistogram_gauges (k : SeriesKey) (r : Recorder) :
    (ensureHistogram k r).gauges = r.gauges := by
  cases h : r.histograms k <;> simp [ensureHistogram, h]

theorem ensureHistogram_histograms_isSome (k j : SeriesKey) (r : Recorder)
    (h : (r.histograms j).isSome = true) :
    ((ensureHistogram k r).histograms j).isSome = true := by
  cases hk : r.histograms k <;> simp [ensureHistogram, hk]
  · exact upd_isSome_mono _ _ _ _ h
  · exact h

theorem register_series_live (id : Uuid) (meta : MonitorMetadata) (s : MetricsState) :
    SeriesLive id meta (register_monitor id meta s) := by
  refine ⟨?_, ?_, ?_, ?_, ?_⟩ <;> simp only [register_monitor]
  · rw [ensureGauge_histograms, ensureGauge_histograms, ensureCounter_histograms,
      ensureCounter_histograms]
    exact ensureHistogram_isSome _ _
  · rw [ensureGauge_counters, ensureGauge_counters]
    exact ensureCounter_counters_isSome _ _ _ (ensureCounter_isSome _ _)
  · rw [ensureGauge_counters, ensureGauge_counters]
    exact ensureCounter_isSome _ _
  · apply ensureGauge_gauges_isSome
    exact ensureGauge_isSome _ _
  · exact ensureGauge_isSome _ _

theorem seriesLive_histStep (id : Uuid) (meta : MonitorMetadata) (k : Option SeriesKey)
    (v : ℚ) (s : MetricsState) (h : SeriesLive id meta s) :
    SeriesLive id meta (histStep k v s) := by
  obtain ⟨l1, l2, l3, l4, l5⟩ := h
  cases k with
  | none => exact ⟨l1, l2, l3, l4, l5⟩
  | some key =>
      exact ⟨upd_isSome_mono _ _ _ _ l1, l2, l3, l4, l5⟩

theorem seriesLive_counterStep (id : Uuid) (meta : MonitorMetadata)
    (k : Option SeriesKey) (s : MetricsState) (h : SeriesLive id meta s) :
    SeriesLive id meta (counterStep k s) := by
  obtain ⟨l1, l2, l3, l4, l5⟩ := h
  cases k with
  | none => exact ⟨l1, l2, l3, l4, l5⟩
  | some key =>
      exact ⟨l1, upd_isSome_mono _ _ _ _ l2, upd_isSome_mono _ _ _ _ l3, l4, l5⟩

theorem seriesLive_gaugeStep (id : Uuid) (meta : MonitorMetadata)
    (k : Option SeriesKey) (v : ℚ) (s : MetricsState) (h : SeriesLive id meta s) :
    SeriesLive id meta (gaugeStep k v s) := by
  obtain ⟨l1, l2, l3, l4, l5⟩ := h
  cases k with
  | none => exact ⟨l1, l2, l3, l4, l5⟩
  | some key =>
      exact ⟨l1, l2, l3, upd_isSome_mono _ _ _ _ l4, upd_isSome_mono _ _ _ _ l5⟩

theorem seriesLive_failureTypeStep (id : Uuid) (meta : MonitorMetadata) (j : Uuid)
    (e : String) (c : Option Nat) (s : MetricsState) (h : SeriesLive id meta s) :
    SeriesLive id meta (failureTypeStep j e c s) := by
  obtain ⟨l1, l2, l3, l4, l5⟩ := h
  cases hm : s.registry.monitor_metadata j with
  | none =>
      simp only [failureTypeStep, hm]
      exact ⟨l1, l2, l3, l4, l5⟩
  | some meta2 =>
      cases hf : s.registry.failure_counters (j, e, c.getD 0) with
      | some k =>
          simp only [failureTypeStep, hm, hf, counterIncrement]
          exact ⟨l1, upd_isSome_mono _ _ _ _ l2, upd_isSome_mono _ _ _ _ l3, l4, l5⟩
      | none =>
          simp only [failureTypeStep, hm, hf, counterIncrement]
          refine ⟨?_, ?_, ?_, ?_, ?_⟩
          · rw [ensureCounter_histograms]; exact l1
          · show ((Recorder.mk _ _ _).counters _).isSome = true
            rw [show ∀ (c : SeriesKey → Option Nat) g hst,
                (Recorder.mk c g hst).counters = c from fun _ _ _ => rfl]
            exact upd_isSome_mono _ _ _ _ (ensureCounter_counters_isSome _ _ _ l2)
          · show ((Recorder.mk _ _ _).counters _).isSome = true
            rw [show ∀ (c : SeriesKey → Option Nat) g hst,
                (Recorder.mk c g hst).counters = c from fun _ _ _ => rfl]
            exact upd_isSome_mono _ _ _ _ (ensureCounter_counters_isSome _ _ _ l3)
          · rw [ensureCounter_gauges]; exact l4
          · rw [ensureCounter_gauges]; exact l5

theorem seriesLive_record_success (id : Uuid) (meta : MonitorMetadata) (j : Uuid)
    (ms now : Nat) (s : MetricsState) (h : SeriesLive id meta s) :
    SeriesLive id meta (record_success j ms now s) := by
  unfold record_success
  apply seriesLive_gaugeStep
  apply seriesLive_gaugeStep
  apply seriesLive_counterStep
  apply seriesLive_histStep
  exact h

theorem seriesLive_record_failure (id : Uuid) (meta : MonitorMetadata) (j : Uuid)
    (ms : Nat) (e : String) (c : Option Nat) (s : MetricsState)
    (h : SeriesLive id meta s) : SeriesLive id meta (record_failure j ms e c s) := by
  unfold record_failure
  apply seriesLive_gaugeStep
  apply seriesLive_failureTypeStep
  apply seriesLive_counterStep
  apply seriesLive_histStep
  exact h

theorem registeredWith_record_success (id : Uuid) (meta : MonitorMetadata) (j : Uuid)
    (ms now : Nat) (s : MetricsState) (h : RegisteredWith id meta s) :
    RegisteredWith id meta (record_success j ms now s) := by
  obtain ⟨h1, h2, h3, h4, h5, h6⟩ := h
  have hr := record_success_registry_eq j ms now s
  exact ⟨by rw [hr]; exact h1, by rw [hr]; exact h2, by rw [hr]; exact h3,
    by rw [hr]; exact h4, by rw [hr]; exact h5, by rw [hr]; exact h6⟩

theorem registeredWith_record_failure (id : Uuid) (meta : MonitorMetadata) (j : Uuid)
    (ms : Nat) (e : String) (c : Option Nat) (s : MetricsState)
    (h : RegisteredWith id meta s) : RegisteredWith id meta (record_failure j ms e c s) := by
  obtain ⟨h1, h2, h3, h4, h5, h6⟩ := h
  have hr := record_failure_registry_frame j ms e c s
  exact ⟨by rw [hr.1]; exact h1, by rw [hr.2.1]; exact h2,
    by rw [hr.2.2.1]; exact h3, by rw [hr.2.2.1]; exact h4,
    by rw [hr.2.2.2.1]; exact h5, by rw [hr.2.2.2.2]; exact h6⟩

theorem ensureCounter_of_isSome (k : SeriesKey) (r : Recorder)
    (h : (r.counters k).isSome = true) : ensureCounter k r = r := by
  unfold ensureCounter
  cases hk : r.counters k with
  | some v => rfl
  | none => rw [hk] at h; simp at h

theorem ensureGauge_of_isSome (k : SeriesKey) (r : Recorder)
    (h : (r.gauges k).isSome = true) : ensureGauge k r = r := by
  unfold ensureGauge
  cases hk : r.gauges k with
  | some v => rfl
  | none => rw [hk] at h; simp at h

theorem ensureHistogram_of_isSome (k : SeriesKey) (r : Recorder)
    (h : (r.histograms k).isSome = true) : ensureHistogram k r = r := by
  unfold ensureHistogram
  cases hk : r.histograms k with
  | some v => rfl
  | none => rw [hk] at h; simp at h

theorem register_noop_of_registered (id : Uuid) (meta : MonitorMetadata)
    (s : MetricsState) (hreg : RegisteredWith id meta s)
    (hlive : SeriesLive id meta s) : register_monitor id meta s = s := by
  obtain ⟨h1, h2, h3, h4, h5, h6⟩ := hreg
  obtain ⟨l1, l2, l3, l4, l5⟩ := hlive
  apply metricsState_ext
  · apply metricsRegistry_ext
    · exact upd_eq_self _ _ _ h2
    · show upd (upd s.registry.request_counters _ _) _ _ = _
      rw [upd_eq_self _ _ _ h3, upd_eq_self _ _ _ h4]
    · rfl
    · exact upd_eq_self _ _ _ h5
    · exact upd_eq_self _ _ _ h6
    · exact upd_eq_self _ _ _ h1
  · show ensureGauge _ (ensureGauge _ (ensureCounter _ (ensureCounter _
      (ensureHistogram _ s.recorder)))) = s.recorder
    rw [ensureHistogram_of_isSome _ _ l1, ensureCounter_of_isSome _ _ l2,
      ensureCounter_of_isSome _ _ l3, ensureGauge_of_isSome _ _ l4,
      ensureGauge_of_isSome _ _ l5]

theorem registered_live_applyOps (id : Uuid) (meta : MonitorMetadata)
    (ops : List MetricsOp) (hops : ∀ op ∈ ops, op.isRecord = true) (s : MetricsState)
    (h : RegisteredWith id meta s ∧ SeriesLive id meta s) :
    RegisteredWith id meta (applyOps ops s) ∧ SeriesLive id meta (applyOps ops s) := by
  induction ops generalizing s with
  | nil => exact h
  | cons op rest ih =>
      rw [applyOps_cons]
      apply ih (fun o ho => hops o (List.mem_cons_of_mem _ ho))
      have hop := hops op (List.mem_cons_self _ _)
      cases op with
      | reg j m => simp [MetricsOp.isRecord] at hop
      | rsucc j ms now =>
          exact ⟨registeredWith_record_success _ _ _ _ _ _ h.1,
            seriesLive_record_success _ _ _ _ _ _ h.2⟩
      | rfail j ms e c =>
          exact ⟨registeredWith_record_failure _ _ _ _ _ _ _ h.1,
            seriesLive_record_failure _ _ _ _ _ _ _ h.2⟩

/-- Claim C8: register is idempotent for counter state.  After registering
a target and recording any sequence of outcomes, calling register again
with the same id and metadata returns the state completely unchanged —
in particular no counter, histogram or gauge value is reset. -/
theorem register_idempotent_for_counters (id : Uuid) (meta : MonitorMetadata)
    (s : MetricsState) (ops : List MetricsOp)
    (hops : ∀ op ∈ ops, op.isRecord = true) :
    register_monitor id meta (applyOps ops (register_monitor id meta s)) =
      applyOps ops (register_monitor id meta s) := by
  have h := registered_live_applyOps id meta ops hops (register_monitor id meta s)
    ⟨register_registers id meta s, register_series_live id meta s⟩
  exact register_noop_of_registered id meta _ h.1 h.2

/-- Witness for C8: register target 1, record one success and one failure,
register again — the state is unchanged. -/
theorem register_idempotent_for_counters_witness :
    (∀ op ∈ [MetricsOp.rsucc 1 100 7, MetricsOp.rfail 1 50 "timeout" none],
      op.isRecord = true) ∧
    register_monitor 1 ⟨"m", "u", 2⟩
        (applyOps [MetricsOp.rsucc 1 100 7, MetricsOp.rfail 1 50 "timeout" none]
          (register_monitor 1 ⟨"m", "u", 2⟩ MetricsState.empty)) =
      applyOps [MetricsOp.rsucc 1 100 7, MetricsOp.rfail 1 50 "timeout" none]
        (register_monitor 1 ⟨"m", "u", 2⟩ MetricsState.empty) :=
  ⟨by decide, register_idempotent_for_counters 1 ⟨"m", "u", 2⟩ MetricsState.empty
    [MetricsOp.rsucc 1 100 7, MetricsOp.rfail 1 50 "timeout" none] (by decide)⟩

/-- Every handle stored in the registry carries the monitor id it was
registered (or lazily created) for — true in every reachable state. -/
def WellKeyed (s : MetricsState) : Prop :=
  (∀ j k, s.registry.response_time_histograms j = some k → k.owner = j) ∧
  (∀ j b k, s.registry.request_counters (j, b) = some k → k.owner = j) ∧
  (∀ j e c k, s.registry.failure_counters (j, e, c) = some k → k.owner = j) ∧
  (∀ j k, s.registry.monitor_status_gauges j = some k → k.owner = j) ∧
  (∀ j k, s.registry.last_success_timestamps j = some k → k.owner = j)

theorem histStep_recorder_frame (ko : Option SeriesKey) (v : ℚ) (s : MetricsState)
    (B : Uuid) (hko : ∀ k2, ko = some k2 → k2.owner ≠ B) :
    ∀ k : SeriesKey, k.owner = B →
      (histStep ko v s).recorder.counters k = s.recorder.counters k ∧
      (histStep ko v s).recorder.gauges k = s.recorder.gauges k ∧
      (histStep ko v s).recorder.histograms k = s.recorder.histograms k := by
  intro k hk
  cases ko with
  | none => exact ⟨rfl, rfl, rfl⟩
  | some k2 =>
      have hne : k ≠ k2 := by
        intro he; exact hko k2 rfl (he ▸ hk)
      exact ⟨rfl, rfl, upd_apply_ne _ _ _ _ hne⟩

theorem counterStep_recorder_frame (ko : Option SeriesKey) (s : MetricsState)
    (B : Uuid) (hko : ∀ k2, ko = some k2 → k2.owner ≠ B) :
    ∀ k : SeriesKey, k.owner = B →
      (counterStep ko s).recorder.counters k = s.recorder.counters k ∧
      (counterStep ko s).recorder.gauges k = s.recorder.gauges k ∧
      (counterStep ko s).recorder.histograms k = s.recorder.histograms k := by
  intro k hk
  cases ko with
  | none => exact ⟨rfl, rfl, rfl⟩
  | some k2 =>
      have hne : k ≠ k2 := by
        intro he; exact hko k2 rfl (he ▸ hk)
      exact ⟨upd_apply_ne _ _ _ _ hne, rfl, rfl⟩

theorem gaugeStep_recorder_frame (ko : Option SeriesKey) (v : ℚ) (s : MetricsState)
    (B : Uuid) (hko : ∀ k2, ko = some k2 → k2.owner ≠ B) :
    ∀ k : SeriesKey, k.owner = B →
      (gaugeStep ko v s).recorder.counters k = s.recorder.counters k ∧
      (gaugeStep ko v s).recorder.gauges k = s.recorder.gauges k ∧
      (gaugeStep ko v s).recorder.histograms k = s.recorder.histograms k := by
  intro k hk
  cases ko with
  | none => exact ⟨rfl, rfl, rfl⟩
  | some k2 =>
      have hne : k ≠ k2 := by
        intro he; exact hko k2 rfl (he ▸ hk)
      exact ⟨rfl, upd_apply_ne _ _ _ _ hne, rfl⟩

theorem failureTypeStep_recorder_frame (A : Uuid) (e : String) (c : Option Nat)
    (s : MetricsState) (B : Uuid) (hAB : A ≠ B)
    (hw : ∀ e2 c2 k, s.registry.failure_counters (A, e2, c2) = some k → k.owner = A) :
    ∀ k : SeriesKey, k.owner = B →
      (failureTypeStep A e c s).recorder.counters k = s.recorder.counters k ∧
      (failureTypeStep A e c s).recorder.gauges k = s.recorder.gauges k ∧
      (failureTypeStep A e c s).recorder.histograms k = s.recorder.histograms k := by
  intro k hk
  cases hm : s.registry.monitor_metadata A with
  | none => simp [failureTypeStep, hm]
  | some meta2 =>
      cases hf : s.registry.failure_counters (A, e, c.getD 0) with
      | some kx =>
          have hne : k ≠ kx := by
            intro he
            exact hAB ((hw e (c.getD 0) kx hf).symm.trans (he ▸ hk))
          simp [failureTypeStep, hm, hf, counterIncrement, upd, hne]
      | none =>
          have hne : k ≠ SeriesKey.failuresTotal (baseLabelsOf A meta2) e
              (statusCodeLabel c) := by
            intro he
            rw [he] at hk
            simp only [SeriesKey.owner, baseLabelsOf] at hk
            exact hAB hk
          simp [failureTypeStep, hm, hf, counterIncrement, upd, hne,
            ensureCounter_ne _ _ _ hne, ensureCounter_gauges, ensureCounter_histograms]

/-- Recorder frame for record_failure: series owned by another monitor
keep their values. -/
theorem record_failure_recorder_owner_frame (A B : Uuid) (ms : Nat) (e : String)
    (c : Option Nat) (s : MetricsState) (hAB : A ≠ B) (hwk : WellKeyed s) :
    ∀ k : SeriesKey, k.owner = B →
      (record_failure A ms e c s).recorder.counters k = s.recorder.counters k ∧
      (record_failure A ms e c s).recorder.gauges k = s.recorder.gauges k ∧
      (record_failure A ms e c s).recorder.histograms k = s.recorder.histograms k := by
  obtain ⟨w1, w2, w3, w4, w5⟩ := hwk
  intro k hk
  have hreg1 : (histStep (s.registry.response_time_histograms A) ((ms : ℚ) / 1000)
        s).registry = s.registry := histStep_registry _ _ _
  have hreg2 : (counterStep ((histStep (s.registry.response_time_histograms A)
      ((ms : ℚ) / 1000) s).registry.request_counters (A, false))
      (histStep (s.registry.response_time_histograms A) ((ms : ℚ) / 1000) s)).registry =
      s.registry := (counterStep_registry _ _).trans hreg1
  have f1 := histStep_recorder_frame (s.registry.response_time_histograms A)
    ((ms : ℚ) / 1000) s B (fun k2 h2 hb => hAB ((w1 A k2 h2).symm.trans hb))
  have f2 := counterStep_recorder_frame
    ((histStep (s.registry.response_time_histograms A)
        ((ms : ℚ) / 1000) s).registry.request_counters (A, false))
    (histStep (s.registry.response_time_histograms A) ((ms : ℚ) / 1000) s) B
    (fun k2 h2 hb => hAB ((w2 A false k2 (by rw [hreg1] at h2; exact h2)).symm.trans hb))
  have f3 := failureTypeStep_recorder_frame A e c
    (counterStep ((histStep (s.registry.response_time_histograms A)
        ((ms : ℚ) / 1000) s).registry.request_counters (A, false))
      (histStep (s.registry.response_time_histograms A) ((ms : ℚ) / 1000) s)) B hAB
    (fun e2 c2 k2 h2 => w3 A e2 c2 k2 (by rw [hreg2] at h2; exact h2))
  have hfts := failureTypeStep_registry_frame A e c
    (counterStep ((histStep (s.registry.response_time_histograms A)
        ((ms : ℚ) / 1000) s).registry.request_counters (A, false))
      (histStep (s.registry.response_time_histograms A) ((ms : ℚ) / 1000) s))
  have f4 := gaugeStep_recorder_frame
    ((failureTypeStep A e c
        (counterStep ((histStep (s.registry.response_time_histograms A)
            ((ms : ℚ) / 1000) s).registry.request_counters (A, false))
          (histStep (s.registry.response_time_histograms A)
            ((ms : ℚ) / 1000) s))).registry.monitor_status_gauges A) 0
    (failureTypeStep A e c
      (counterStep ((histStep (s.registry.response_time_histograms A)
          ((ms : ℚ) / 1000) s).registry.request_counters (A, false))
        (histStep (s.registry.response_time_histograms A) ((ms : ℚ) / 1000) s))) B
    (fun k2 h2 hb => hAB ((w4 A k2 (by
      rw [congrFun hfts.2.2.2.1 A] at h2
      rw [hreg2] at h2
      exact h2)).symm.trans hb))
  exact ⟨((f4 k hk).1).trans (((f3 k hk).1).trans (((f2 k hk).1).trans ((f1 k hk).1))),
    ((f4 k hk).2.1).trans (((f3 k hk).2.1).trans (((f2 k hk).2.1).trans
      ((f1 k hk).2.1))),
    ((f4 k hk).2.2).trans (((f3 k hk).2.2).trans (((f2 k hk).2.2).trans
      ((f1 k hk).2.2)))⟩

/-- Recorder frame for record_success: series owned by another monitor
keep their values. -/
theorem record_success_recorder_owner_frame (A B : Uuid) (ms now : Nat)
    (s : MetricsState) (hAB : A ≠ B) (hwk : WellKeyed s) :
    ∀ k : SeriesKey, k.owner = B →
      (record_success A ms now s).recorder.counters k = s.recorder.counters k ∧
      (record_success A ms now s).recorder.gauges k = s.recorder.gauges k ∧
      (record_success A ms now s).recorder.histograms k = s.recorder.histograms k := by
  obtain ⟨w1, w2, w3, w4, w5⟩ := hwk
  intro k hk
  have hreg1 : (histStep (s.registry.response_time_histograms A) ((ms : ℚ) / 1000)
      s).registry = s.registry := histStep_registry _ _ _
  have hreg2 : (counterStep ((histStep (s.registry.response_time_histograms A)
      ((ms : ℚ) / 1000) s).registry.request_counters (A, true))
      (histStep (s.registry.response_time_histograms A) ((ms : ℚ) / 1000) s)).registry =
      s.registry := (counterStep_registry _ _).trans hreg1
  have hreg3 : (gaugeStep ((counterStep ((histStep (s.registry.response_time_histograms A)
      ((ms : ℚ) / 1000) s).registry.request_counters (A, true))
      (histStep (s.registry.response_time_histograms A)
        ((ms : ℚ) / 1000) s)).registry.monitor_status_gauges A) 1
      (counterStep ((histStep (s.registry.response_time_histograms A)
        ((ms : ℚ) / 1000) s).registry.request_counters (A, true))
        (histStep (s.registry.response_time_histograms A)
          ((ms : ℚ) / 1000) s))).registry = s.registry :=
    (gaugeStep_registry _ _ _).trans hreg2
  have f1 := histStep_recorder_frame (s.registry.response_time_histograms A)
    ((ms : ℚ) / 1000) s B (fun k2 h2 hb => hAB ((w1 A k2 h2).symm.trans hb))
  have f2 := counterStep_recorder_frame
    ((histStep (s.registry.response_time_histograms A)
        ((ms : ℚ) / 1000) s).registry.request_counters (A, true))
    (histStep (s.registry.response_time_histograms A) ((ms : ℚ) / 1000) s) B
    (fun k2 h2 hb => hAB ((w2 A true k2 (by rw [hreg1] at h2; exact h2)).symm.trans hb))
  have f3 := gaugeStep_recorder_frame
    ((counterStep ((histStep (s.registry.response_time_histograms A)
        ((ms : ℚ) / 1000) s).registry.request_counters (A, true))
      (histStep (s.registry.response_time_histograms A)
        ((ms : ℚ) / 1000) s)).registry.monitor_status_gauges A) 1
    (counterStep ((histStep (s.registry.response_time_histograms A)
        ((ms : ℚ) / 1000) s).registry.request_counters (A, true))
      (histStep (s.registry.response_time_histograms A) ((ms : ℚ) / 1000) s)) B
    (fun k2 h2 hb => hAB ((w4 A k2 (by rw [hreg2] at h2; exact h2)).symm.trans hb))
  have f4 := gaugeStep_recorder_frame
    ((gaugeStep ((counterStep ((histStep (s.registry.response_time_histograms A)
        ((ms : ℚ) / 1000) s).registry.request_counters (A, true))
        (histStep (s.registry.response_time_histograms A)
          ((ms : ℚ) / 1000) s)).registry.monitor_status_gauges A) 1
      (counterStep ((histStep (s.registry.response_time_histograms A)
          ((ms : ℚ) / 1000) s).registry.request_counters (A, true))
        (histStep (s.registry.response_time_histograms A)
          ((ms : ℚ) / 1000) s))).registry.last_success_timestamps A) ((now : ℚ))
    (gaugeStep ((counterStep ((histStep (s.registry.response_time_histograms A)
        ((ms : ℚ) / 1000) s).registry.request_counters (A, true))
        (histStep (s.registry.response_time_histograms A)
          ((ms : ℚ) / 1000) s)).registry.monitor_status_gauges A) 1
      (counterStep ((histStep (s.registry.response_time_histograms A)
          ((ms : ℚ) / 1000) s).registry.request_counters (A, true))
        (histStep (s.registry.response_time_histograms A) ((ms : ℚ) / 1000) s))) B
    (fun k2 h2 hb => hAB ((w5 A k2 (by rw [hreg3] at h2; exact h2)).symm.trans hb))
  exact ⟨((f4 k hk).1).trans (((f3 k hk).1).trans (((f2 k hk).1).trans ((f1 k hk).1))),
    ((f4 k hk).2.1).trans (((f3 k hk).2.1).trans (((f2 k hk).2.1).trans
      ((f1 k hk).2.1))),
    ((f4 k hk).2.2).trans (((f3 k hk).2.2).trans (((f2 k hk).2.2).trans
      ((f1 k hk).2.2)))⟩

/-- Claim C9: recording a failure for target A leaves every instrument of
a distinct target B — histogram, request counters, failure-type
counters, up gauge, last-success timestamp, and B's registry entries —
unchanged.  The final conjunct shows B's scheduling state is untouched
by any recording: the worker state produced by a cycle is computed from
the settings and the last-run map alone, with the record phase (a total
function — it cannot abort the loop) acting only on the metrics state. -/
theorem record_failure_other_target_frame (A B : Uuid) (ms : Nat) (e : String)
    (c : Option Nat) (s : MetricsState) (hAB : A ≠ B) (hwk : WellKeyed s) :
    (∀ k : SeriesKey, k.owner = B →
      (record_failure A ms e c s).recorder.counters k = s.recorder.counters k ∧
      (record_failure A ms e c s).recorder.gauges k = s.recorder.gauges k ∧
      (record_failure A ms e c s).recorder.histograms k = s.recorder.histograms k) ∧
    (record_failure A ms e c s).registry.response_time_histograms B =
      s.registry.response_time_histograms B ∧
    (∀ b, (record_failure A ms e c s).registry.request_counters (B, b) =
      s.registry.request_counters (B, b)) ∧
    (∀ e2 c2, (record_failure A ms e c s).registry.failure_counters (B, e2, c2) =
      s.registry.failure_counters (B, e2, c2)) ∧
    (record_failure A ms e c s).registry.monitor_status_gauges B =
      s.registry.monitor_status_gauges B ∧
    (record_failure A ms e c s).registry.last_success_timestamps B =
      s.registry.last_success_timestamps B ∧
    (record_failure A ms e c s).registry.monitor_metadata B =
      s.registry.monitor_metadata B ∧
    (∀ (env : ProbeEnv) (now : Nat) (w : Worker) (t : MetricsState),
      (check_due_monitors env now w t).1.last_run_times =
        (selectDue w.settings.monitors w.last_run_times now).2) := by
  have hBA : B ≠ A := fun h2 => hAB h2.symm
  have hfr := record_failure_registry_frame A ms e c s
  refine ⟨record_failure_recorder_owner_frame A B ms e c s hAB hwk,
    ?_, ?_, ?_, ?_, ?_, ?_, ?_⟩
  · rw [hfr.2.1]
  · intro b; rw [hfr.2.2.1]
  · intro e2 c2; exact record_failure_failure_counters_ne A ms e c s B hBA e2 c2
  · rw [hfr.2.2.2.1]
  · rw [hfr.2.2.2.2]
  · rw [hfr.1]
  · intro env now w t; rfl

theorem wellKeyed_empty : WellKeyed MetricsState.empty := by
  refine ⟨?_, ?_, ?_, ?_, ?_⟩ <;> intros <;>
    simp_all [MetricsState.empty, MetricsRegistry.new]

theorem wellKeyed_register (id : Uuid) (meta : MonitorMetadata) (s : MetricsState)
    (h : WellKeyed s) : WellKeyed (register_monitor id meta s) := by
  obtain ⟨w1, w2, w3, w4, w5⟩ := h
  refine ⟨?_, ?_, ?_, ?_, ?_⟩ <;> simp only [register_monitor]
  · intro j k hjk
    by_cases hj : j = id
    · subst hj
      rw [upd_apply_self] at hjk
      cases hjk; rfl
    · rw [upd_apply_ne _ _ _ _ hj] at hjk
      exact w1 j k hjk
  · intro j b k hjk
    by_cases hjf : (j, b) = ((id, false) : Uuid × Bool)
    · rw [hjf, upd_apply_self] at hjk
      cases hjk
      simp only [SeriesKey.owner, baseLabelsOf]
      exact (congrArg Prod.fst hjf).symm
    · rw [upd_apply_ne _ _ _ _ hjf] at hjk
      by_cases hjt : (j, b) = ((id, true) : Uuid × Bool)
      · rw [hjt, upd_apply_self] at hjk
        cases hjk
        simp only [SeriesKey.owner, baseLabelsOf]
        exact (congrArg Prod.fst hjt).symm
      · rw [upd_apply_ne _ _ _ _ hjt] at hjk
        exact w2 j b k hjk
  · exact w3
  · intro j k hjk
    by_cases hj : j = id
    · subst hj
      rw [upd_apply_self] at hjk
      cases hjk; rfl
    · rw [upd_apply_ne _ _ _ _ hj] at hjk
      exact w4 j k hjk
  · intro j k hjk
    by_cases hj : j = id
    · subst hj
      rw [upd_apply_self] at hjk
      cases hjk; rfl
    · rw [upd_apply_ne _ _ _ _ hj] at hjk
      exact w5 j k hjk

theorem wellKeyed_record_success (id : Uuid) (ms now : Nat) (s : MetricsState)
    (h : WellKeyed s) : WellKeyed (record_success id ms now s) := by
  obtain ⟨w1, w2, w3, w4, w5⟩ := h
  have hr := record_success_registry_eq id ms now s
  exact ⟨by rw [hr]; exact w1, by rw [hr]; exact w2, by rw [hr]; exact w3,
    by rw [hr]; exact w4, by rw [hr]; exact w5⟩

theorem failureTypeStep_counters_cases (A : Uuid) (e : String) (c : Option Nat)
    (s : MetricsState) (key2 : Uuid × String × Nat) :
    (failureTypeStep A e c s).registry.failure_counters key2 =
      s.registry.failure_counters key2 ∨
    (key2.1 = A ∧ ∃ meta2, (failureTypeStep A e c s).registry.failure_counters key2 =
      some (SeriesKey.failuresTotal (baseLabelsOf A meta2) e (statusCodeLabel c))) := by
  cases hm : s.registry.monitor_metadata A with
  | none => left; simp [failureTypeStep, hm]
  | some meta2 =>
      cases hf : s.registry.failure_counters (A, e, c.getD 0) with
      | some kx => left; simp [failureTypeStep, hm, hf]
      | none =>
          by_cases hkey : key2 = (A, e, c.getD 0)
          · right
            refine ⟨by rw [hkey], meta2, ?_⟩
            simp only [failureTypeStep, hm, hf]
            rw [hkey, upd_apply_self]
          · left
            simp only [failureTypeStep, hm, hf]
            exact upd_apply_ne _ _ _ _ hkey

theorem record_failure_counters_cases (A : Uuid) (ms : Nat) (e : String)
    (c : Option Nat) (s : MetricsState) (key2 : Uuid × String × Nat) :
    (record_failure A ms e c s).registry.failure_counters key2 =
      s.registry.failure_counters key2 ∨
    (key2.1 = A ∧ ∃ meta2, (record_failure A ms e c s).registry.failure_counters key2 =
      some (SeriesKey.failuresTotal (baseLabelsOf A meta2) e (statusCodeLabel c))) := by
  have hc := failureTypeStep_counters_cases A e c
    (counterStep ((histStep (s.registry.response_time_histograms A)
        ((ms : ℚ) / 1000) s).registry.request_counters (A, false))
      (histStep (s.registry.response_time_histograms A) ((ms : ℚ) / 1000) s)) key2
  have hreg2 : (counterStep ((histStep (s.registry.response_time_histograms A)
      ((ms : ℚ) / 1000) s).registry.request_counters (A, false))
      (histStep (s.registry.response_time_histograms A) ((ms : ℚ) / 1000) s)).registry =
      s.registry :=
    (counterStep_registry _ _).trans (histStep_registry _ _ _)
  rcases hc with hc | ⟨hA, meta2, hc⟩
  · left
    show (gaugeStep _ 0 _).registry.failure_counters key2 = _
    rw [gaugeStep_registry]
    rw [hc, hreg2]
  · right
    refine ⟨hA, meta2, ?_⟩
    show (gaugeStep _ 0 _).registry.failure_counters key2 = _
    rw [gaugeStep_registry]
    exact hc

theorem wellKeyed_record_failure (id : Uuid) (ms : Nat) (e : String) (c : Option Nat)
    (s : MetricsState) (h : WellKeyed s) : WellKeyed (record_failure id ms e c s) := by
  obtain ⟨w1, w2, w3, w4, w5⟩ := h
  have hr := record_failure_registry_frame id ms e c s
  refine ⟨by rw [hr.2.1]; exact w1, by rw [hr.2.2.1]; exact w2, ?_,
    by rw [hr.2.2.2.1]; exact w4, by rw [hr.2.2.2.2]; exact w5⟩
  intro j e2 c2 k hlook
  rcases record_failure_counters_cases id ms e c s (j, e2, c2) with hcase | ⟨hA, m2, hcase⟩
  · rw [hcase] at hlook
    exact w3 j e2 c2 k hlook
  · rw [hcase] at hlook
    cases hlook
    exact hA.symm

/-- Witness for C9: monitors 1 and 2 registered; a timeout failure is
recorded for monitor 1 and every instrument and registry entry of
monitor 2 is unchanged. -/
theorem record_failure_other_target_frame_witness :
    ((1 : Uuid) ≠ 2) ∧
    WellKeyed (register_monitor 2 ⟨"b", "v", 3⟩
      (register_monitor 1 ⟨"a", "u", 2⟩ MetricsState.empty)) ∧
    ((∀ k : SeriesKey, k.owner = 2 →
      (record_failure 1 50 "timeout" none (register_monitor 2 ⟨"b", "v", 3⟩
          (register_monitor 1 ⟨"a", "u", 2⟩ MetricsState.empty))).recorder.counters k =
        (register_monitor 2 ⟨"b", "v", 3⟩
          (register_monitor 1 ⟨"a", "u", 2⟩ MetricsState.empty)).recorder.counters k ∧
      (record_failure 1 50 "timeout" none (register_monitor 2 ⟨"b", "v", 3⟩
          (register_monitor 1 ⟨"a", "u", 2⟩ MetricsState.empty))).recorder.gauges k =
        (register_monitor 2 ⟨"b", "v", 3⟩
          (register_monitor 1 ⟨"a", "u", 2⟩ MetricsState.empty)).recorder.gauges k ∧
      (record_failure 1 50 "timeout" none (register_monitor 2 ⟨"b", "v", 3⟩
          (register_monitor 1 ⟨"a", "u", 2⟩ MetricsState.empty))).recorder.histograms k =
        (register_monitor 2 ⟨"b", "v", 3⟩
          (register_monitor 1 ⟨"a", "u", 2⟩
            MetricsState.empty)).recorder.histograms k) ∧
    (record_failure 1 50 "timeout" none (register_monitor 2 ⟨"b", "v", 3⟩
        (register_monitor 1 ⟨"a", "u", 2⟩
          MetricsState.empty))).registry.response_time_histograms 2 =
      (register_monitor 2 ⟨"b", "v", 3⟩
        (register_monitor 1 ⟨"a", "u", 2⟩
          MetricsState.empty)).registry.response_time_histograms 2 ∧
    (∀ b, (record_failure 1 50 "timeout" none (register_monitor 2 ⟨"b", "v", 3⟩
        (register_monitor 1 ⟨"a", "u", 2⟩
          MetricsState.empty))).registry.request_counters (2, b) =
      (register_monitor 2 ⟨"b", "v", 3⟩
        (register_monitor 1 ⟨"a", "u", 2⟩
          MetricsState.empty)).registry.request_counters (2, b)) ∧
    (∀ e2 c2, (record_failure 1 50 "timeout" none (register_monitor 2 ⟨"b", "v", 3⟩
        (register_monitor 1 ⟨"a", "u", 2⟩
          MetricsState.empty))).registry.failure_counters (2, e2, c2) =
      (register_monitor 2 ⟨"b", "v", 3⟩
        (register_monitor 1 ⟨"a", "u", 2⟩
          MetricsState.empty)).registry.failure_counters (2, e2, c2)) ∧
    (record_failure 1 50 "timeout" none (register_monitor 2 ⟨"b", "v", 3⟩
        (register_monitor 1 ⟨"a", "u", 2⟩
          MetricsState.empty))).registry.monitor_status_gauges 2 =
      (register_monitor 2 ⟨"b", "v", 3⟩
        (register_monitor 1 ⟨"a", "u", 2⟩
          MetricsState.empty)).registry.monitor_status_gauges 2 ∧
    (record_failure 1 50 "timeout" none (register_monitor 2 ⟨"b", "v", 3⟩
        (register_monitor 1 ⟨"a", "u", 2⟩
          MetricsState.empty))).registry.last_success_timestamps 2 =
      (register_monitor 2 ⟨"b", "v", 3⟩
        (register_monitor 1 ⟨"a", "u", 2⟩
          MetricsState.empty)).registry.last_success_timestamps 2 ∧
    (record_failure 1 50 "timeout" none (register_monitor 2 ⟨"b", "v", 3⟩
        (register_monitor 1 ⟨"a", "u", 2⟩
          MetricsState.empty))).registry.monitor_metadata 2 =
      (register_monitor 2 ⟨"b", "v", 3⟩
        (register_monitor 1 ⟨"a", "u", 2⟩
          MetricsState.empty)).registry.monitor_metadata 2 ∧
    (∀ (env : ProbeEnv) (now : Nat) (w : Worker) (t : MetricsState),
      (check_due_monitors env now w t).1.last_run_times =
        (selectDue w.settings.monitors w.last_run_times now).2)) :=
  ⟨by decide,
    wellKeyed_register 2 ⟨"b", "v", 3⟩ _
      (wellKeyed_register 1 ⟨"a", "u", 2⟩ _ wellKeyed_empty),
    record_failure_other_target_frame 1 2 50 "timeout" none
      (register_monitor 2 ⟨"b", "v", 3⟩
        (register_monitor 1 ⟨"a", "u", 2⟩ MetricsState.empty))
      (by decide)
      (wellKeyed_register 2 ⟨"b", "v", 3⟩ _
        (wellKeyed_register 1 ⟨"a", "u", 2⟩ _ wellKeyed_empty))⟩

theorem check_monitor_monitor_id (monitor : MonitorConfig) (resp : HttpResponse)
    (elapsed_ms timestamp : Nat) :
    (check_monitor monitor resp elapsed_ms timestamp).monitor_id = monitor.id := by
  cases resp <;> rfl

theorem selectDue_go_mem (now : Nat) (monitors : List MonitorConfig) :
    ∀ (acc : List MonitorConfig × (Uuid → Option Nat)) (mon : MonitorConfig),
      mon ∈ (monitors.foldl (selectStep now) acc).1 →
      (mon ∈ monitors ∧ mon.enabled = true) ∨ mon ∈ acc.1 := by
  induction monitors with
  | nil => intro acc mon h; exact Or.inr h
  | cons m rest ih =>
      intro acc mon h
      rw [List.foldl_cons] at h
      rcases ih _ mon h with ⟨hm, he⟩ | hacc
      · exact Or.inl ⟨List.mem_cons_of_mem _ hm, he⟩
      · unfold selectStep at hacc
        by_cases hen : m.enabled = true
        · by_cases hsr : should_run (acc.2 m.id) now m.interval = true
          · simp only [hen, hsr, if_true] at hacc
            rcases List.mem_append.mp hacc with h1 | h1
            · exact Or.inr h1
            · have h2 : mon = m := List.mem_singleton.mp h1
              exact Or.inl ⟨h2 ▸ List.mem_cons_self _ _, h2 ▸ hen⟩
          · simp only [hen, hsr, if_true, if_false] at hacc
            exact Or.inr hacc
        · simp only [hen, if_false] at hacc
          exact Or.inr hacc

theorem selectDue_go_map (now : Nat) (id : Uuid) (monitors : List MonitorConfig)
    (hdis : ∀ mon ∈ monitors, mon.id = id → mon.enabled = false) :
    ∀ acc : List MonitorConfig × (Uuid → Option Nat),
      (monitors.foldl (selectStep now) acc).2 id = acc.2 id := by
  induction monitors with
  | nil => intro acc; rfl
  | cons m rest ih =>
      intro acc
      rw [List.foldl_cons,
        ih (fun mon hm => hdis mon (List.mem_cons_of_mem _ hm))]
      unfold selectStep
      by_cases hen : m.enabled = true
      · have hid : m.id ≠ id := by
          intro hid2
          rw [hdis m (List.mem_cons_self _ _) hid2] at hen
          cases hen
        by_cases hsr : should_run (acc.2 m.id) now m.interval = true
        · simp only [hen, hsr, if_true]
          exact upd_apply_ne _ _ _ _ (fun h2 => hid h2.symm)
        · simp [hen, hsr]
      · simp [hen]

theorem record_metrics_frame (r : MonitorResult) (B : Uuid) (now : Nat)
    (s : MetricsState) (hne : r.monitor_id ≠ B) (hwk : WellKeyed s) :
    WellKeyed (record_metrics r now s) ∧
    (∀ e c, (record_metrics r now s).registry.failure_counters (B, e, c) =
      s.registry.failure_counters (B, e, c)) ∧
    (∀ k : SeriesKey, k.owner = B →
      (record_metrics r now s).recorder.counters k = s.recorder.counters k ∧
      (record_metrics r now s).recorder.gauges k = s.recorder.gauges k ∧
      (record_metrics r now s).recorder.histograms k = s.recorder.histograms k) := by
  cases hr : r.success with
  | true =>
      simp only [record_metrics, hr, if_true]
      exact ⟨wellKeyed_record_success _ _ _ _ hwk,
        fun e c => by rw [record_success_registry_eq],
        record_success_recorder_owner_frame _ B _ _ s hne hwk⟩
  | false =>
      simp only [record_metrics, hr, Bool.false_eq_true, if_false]
      exact ⟨wellKeyed_record_failure _ _ _ _ _ hwk,
        fun e c => record_failure_failure_counters_ne _ _ _ _ s B
          (fun h2 => hne h2.symm) e c,
        record_failure_recorder_owner_frame _ B _ _ _ s hne hwk⟩

theorem record_fold_frame (B : Uuid) (env : ProbeEnv) (L : List MonitorConfig)
    (hL : ∀ mon ∈ L, mon.id ≠ B) :
    ∀ s : MetricsState, WellKeyed s →
      WellKeyed (L.foldl (fun acc monitor =>
        record_metrics (check_monitor monitor (env.response monitor.id)
          (env.elapsed_ms monitor.id) env.timestamp) env.wallclock acc) s) ∧
      (∀ e c, (L.foldl (fun acc monitor =>
          record_metrics (check_monitor monitor (env.response monitor.id)
            (env.elapsed_ms monitor.id) env.timestamp) env.wallclock acc)
          s).registry.failure_counters (B, e, c) =
        s.registry.failure_counters (B, e, c)) ∧
      (∀ k : SeriesKey, k.owner = B →
        (L.foldl (fun acc monitor =>
          record_metrics (check_monitor monitor (env.response monitor.id)
            (env.elapsed_ms monitor.id) env.timestamp) env.wallclock acc)
          s).recorder.counters k = s.recorder.counters k ∧
        (L.foldl (fun acc monitor =>
          record_metrics (check_monitor monitor (env.response monitor.id)
            (env.elapsed_ms monitor.id) env.timestamp) env.wallclock acc)
          s).recorder.gauges k = s.recorder.gauges k ∧
        (L.foldl (fun acc monitor =>
          record_metrics (check_monitor monitor (env.response monitor.id)
            (env.elapsed_ms monitor.id) env.timestamp) env.wallclock acc)
          s).recorder.histograms k = s.recorder.histograms k) := by
  induction L with
  | nil => intro s hwk; exact ⟨hwk, fun e c => rfl, fun k hk => ⟨rfl, rfl, rfl⟩⟩
  | cons m rest ih =>
      intro s hwk
      have hm := record_metrics_frame
        (check_monitor m (env.response m.id) (env.elapsed_ms m.id) env.timestamp) B
        env.wallclock s
        (by rw [check_monitor_monitor_id]; exact hL m (List.mem_cons_self _ _)) hwk
      have hr := ih (fun mon h2 => hL mon (List.mem_cons_of_mem _ h2)) _ hm.1
      rw [List.foldl_cons]
      refine ⟨hr.1, ?_, ?_⟩
      · intro e c
        rw [hr.2.1 e c, hm.2.1 e c]
      · intro k hk
        exact ⟨((hr.2.2 k hk).1).trans ((hm.2.2 k hk).1),
          ((hr.2.2 k hk).2.1).trans ((hm.2.2 k hk).2.1),
          ((hr.2.2 k hk).2.2).trans ((hm.2.2 k hk).2.2)⟩

theorem cycle_frame (id : Uuid) (env : ProbeEnv) (now : Nat) (w : Worker)
    (s : MetricsState)
    (hdis : ∀ mon ∈ w.settings.monitors, mon.id = id → mon.enabled = false)
    (hwk : WellKeyed s) :
    (check_due_monitors env now w s).1.settings = w.settings ∧
    (check_due_monitors env now w s).1.last_run_times id = w.last_run_times id ∧
    WellKeyed (check_due_monitors env now w s).2 ∧
    (∀ e c, (check_due_monitors env now w s).2.registry.failure_counters (id, e, c) =
      s.registry.failure_counters (id, e, c)) ∧
    (∀ k : SeriesKey, k.owner = id →
      (check_due_monitors env now w s).2.recorder.counters k = s.recorder.counters k ∧
      (check_due_monitors env now w s).2.recorder.gauges k = s.recorder.gauges k ∧
      (check_due_monitors env now w s).2.recorder.histograms k =
        s.recorder.histograms k) := by
  have hdue : ∀ mon ∈ (selectDue w.settings.monitors w.last_run_times now).1,
      mon.id ≠ id := by
    intro mon hmon hid2
    rcases selectDue_go_mem now w.settings.monitors ([], w.last_run_times) mon hmon with
      ⟨hm, he⟩ | habs
    · rw [hdis mon hm hid2] at he; cases he
    · exact absurd habs (List.not_mem_nil _)
  have hfold := record_fold_frame id env
    (selectDue w.settings.monitors w.last_run_times now).1 hdue s hwk
  exact ⟨rfl, selectDue_go_map now id w.settings.monitors hdis ([], w.last_run_times),
    hfold.1, hfold.2.1, hfold.2.2⟩

theorem run_cycles_frame (id : Uuid) (settings : Settings)
    (hdis : ∀ mon ∈ settings.monitors, mon.id = id → mon.enabled = false)
    (cycles : List (Nat × ProbeEnv)) :
    ∀ (w : Worker) (s : MetricsState), w.settings = settings → WellKeyed s →
      (run_cycles cycles (w, s)).1.settings = settings ∧
      (run_cycles cycles (w, s)).1.last_run_times id = w.last_run_times id ∧
      WellKeyed (run_cycles cycles (w, s)).2 ∧
      (∀ e c, (run_cycles cycles (w, s)).2.registry.failure_counters (id, e, c) =
        s.registry.failure_counters (id, e, c)) ∧
      (∀ k : SeriesKey, k.owner = id →
        (run_cycles cycles (w, s)).2.recorder.counters k = s.recorder.counters k ∧
        (run_cycles cycles (w, s)).2.recorder.gauges k = s.recorder.gauges k ∧
        (run_cycles cycles (w, s)).2.recorder.histograms k =
          s.recorder.histograms k) := by
  induction cycles with
  | nil =>
      intro w s hw hwk
      exact ⟨hw, rfl, hwk, fun e c => rfl, fun k hk => ⟨rfl, rfl, rfl⟩⟩
  | cons cyc rest ih =>
      intro w s hw hwk
      have hdis2 : ∀ mon ∈ w.settings.monitors, mon.id = id → mon.enabled = false := by
        rw [hw]; exact hdis
      have hcf := cycle_frame id cyc.2 cyc.1 w s hdis2 hwk
      have hrest := ih (check_due_monitors cyc.2 cyc.1 w s).1
        (check_due_monitors cyc.2 cyc.1 w s).2 (hcf.1.trans hw) hcf.2.2.1
      refine ⟨hrest.1, hrest.2.1.trans hcf.2.1, hrest.2.2.1, ?_, ?_⟩
      · intro e c
        exact (hrest.2.2.2.1 e c).trans (hcf.2.2.2.1 e c)
      · intro k hk
        exact ⟨((hrest.2.2.2.2 k hk).1).trans ((hcf.2.2.2.2 k hk).1),
          ((hrest.2.2.2.2 k hk).2.1).trans ((hcf.2.2.2.2 k hk).2.1),
          ((hrest.2.2.2.2 k hk).2.2).trans ((hcf.2.2.2.2 k hk).2.2)⟩

theorem wellKeyed_register_fold (monitors : List MonitorConfig) :
    ∀ s : MetricsState, WellKeyed s →
      WellKeyed (monitors.foldl (fun acc monitor =>
        register_monitor monitor.id ⟨monitor.name, monitor.url, monitor.interval⟩ acc)
        s) := by
  induction monitors with
  | nil => intro s h; exact h
  | cons m rest ih =>
      intro s h
      rw [List.foldl_cons]
      exact ih _ (wellKeyed_register _ _ _ h)

theorem register_fold_failure_counters (monitors : List MonitorConfig) :
    ∀ s : MetricsState,
      (monitors.foldl (fun acc monitor =>
        register_monitor monitor.id ⟨monitor.name, monitor.url, monitor.interval⟩ acc)
        s).registry.failure_counters = s.registry.failure_counters := by
  induction monitors with
  | nil => intro s; rfl
  | cons m rest ih =>
      intro s
      rw [List.foldl_cons, ih]
      rfl

/-- Claim C7 counterexample: `Worker::new` (src/worker.rs lines 42-50)
registers every configured monitor with the metrics registry without
checking the enabled flag, so a disabled target does acquire state at
startup — its metadata entry, its histogram handle, and the materialised
histogram series — refuting the clause that no state of any kind is ever
created for a disabled target. -/
theorem disabled_monitor_state_created :
    (Worker.new ⟨[⟨1, "d", "u", 5, false⟩]⟩
        MetricsState.empty).2.registry.monitor_metadata 1 = some ⟨"d", "u", 5⟩ ∧
    (Worker.new ⟨[⟨1, "d", "u", 5, false⟩]⟩
        MetricsState.empty).2.registry.response_time_histograms 1 =
      some (.responseTimeSeconds (baseLabelsOf 1 ⟨"d", "u", 5⟩)) ∧
    ((Worker.new ⟨[⟨1, "d", "u", 5, false⟩]⟩
        MetricsState.empty).2.recorder.histograms
        (.responseTimeSeconds (baseLabelsOf 1 ⟨"d", "u", 5⟩))).isSome = true :=
  ⟨rfl, rfl, rfl⟩

/-- Claim C7 (amended): for a target id all of whose configured monitors
are disabled, across the entire process lifetime no probe is ever
dispatched for it (it never appears in a selection), no last-run entry
is ever created, no metric is ever recorded for it (every recorder
series it owns keeps its startup value) and no failure-type counter is
ever created; however — contrary to the original claim's "no state of
any kind" — `Worker::new` does register the disabled monitor at startup,
creating its metadata entry and instrument bundle (see the
counterexample). -/
theorem disabled_monitor_never_probed (settings : Settings) (id : Uuid)
    (cycles : List (Nat × ProbeEnv))
    (hdis : ∀ mon ∈ settings.monitors, mon.id = id → mon.enabled = false) :
    (∀ (lr : Uuid → Option Nat) (now : Nat),
      ∀ mon ∈ (selectDue settings.monitors lr now).1, mon.id ≠ id) ∧
    (run_cycles cycles (Worker.new settings MetricsState.empty)).1.last_run_times id =
      none ∧
    (∀ e c, (run_cycles cycles
        (Worker.new settings MetricsState.empty)).2.registry.failure_counters
        (id, e, c) = none) ∧
    (∀ k : SeriesKey, k.owner = id →
      (run_cycles cycles (Worker.new settings MetricsState.empty)).2.recorder.counters
          k = (Worker.new settings MetricsState.empty).2.recorder.counters k ∧
      (run_cycles cycles (Worker.new settings MetricsState.empty)).2.recorder.gauges
          k = (Worker.new settings MetricsState.empty).2.recorder.gauges k ∧
      (run_cycles cycles (Worker.new settings MetricsState.empty)).2.recorder.histograms
          k = (Worker.new settings MetricsState.empty).2.recorder.histograms k) := by
  have hwk0 : WellKeyed (Worker.new settings MetricsState.empty).2 :=
    wellKeyed_register_fold settings.monitors MetricsState.empty wellKeyed_empty
  have hrun := run_cycles_frame id settings hdis cycles
    (Worker.new settings MetricsState.empty).1
    (Worker.new settings MetricsState.empty).2 rfl hwk0
  refine ⟨?_, ?_, ?_, ?_⟩
  · intro lr now mon hmon hid2
    rcases selectDue_go_mem now settings.monitors ([], lr) mon hmon with ⟨hm, he⟩ | habs
    · rw [hdis mon hm hid2] at he; cases he
    · exact absurd habs (List.not_mem_nil _)
  · exact hrun.2.1.trans rfl
  · intro e c
    exact (hrun.2.2.2.1 e c).trans
      ((congrFun (register_fold_failure_counters settings.monitors
        MetricsState.empty) (id, e, c)).trans rfl)
  · exact hrun.2.2.2.2

/-- Witness for C7 (amended): one disabled monitor, one cycle in which
every probe would answer HTTP 200. -/
theorem disabled_monitor_never_probed_witness :
    (∀ mon ∈ (Settings.mk [⟨1, "d", "u", 5, false⟩]).monitors,
      mon.id = 1 → mon.enabled = false) ∧
    ((∀ (lr : Uuid → Option Nat) (now : Nat),
      ∀ mon ∈ (selectDue (Settings.mk [⟨1, "d", "u", 5, false⟩]).monitors lr now).1,
        mon.id ≠ 1) ∧
    (run_cycles [(0, ⟨fun _ => .ok 200, fun _ => 10, 3, 4⟩)]
        (Worker.new ⟨[⟨1, "d", "u", 5, false⟩]⟩
          MetricsState.empty)).1.last_run_times 1 = none ∧
    (∀ e c, (run_cycles [(0, ⟨fun _ => .ok 200, fun _ => 10, 3, 4⟩)]
        (Worker.new ⟨[⟨1, "d", "u", 5, false⟩]⟩
          MetricsState.empty)).2.registry.failure_counters (1, e, c) = none) ∧
    (∀ k : SeriesKey, k.owner = 1 →
      (run_cycles [(0, ⟨fun _ => .ok 200, fun _ => 10, 3, 4⟩)]
        (Worker.new ⟨[⟨1, "d", "u", 5, false⟩]⟩
          MetricsState.empty)).2.recorder.counters k =
        (Worker.new ⟨[⟨1, "d", "u", 5, false⟩]⟩
          MetricsState.empty).2.recorder.counters k ∧
      (run_cycles [(0, ⟨fun _ => .ok 200, fun _ => 10, 3, 4⟩)]
        (Worker.new ⟨[⟨1, "d", "u", 5, false⟩]⟩
          MetricsState.empty)).2.recorder.gauges k =
        (Worker.new ⟨[⟨1, "d", "u", 5, false⟩]⟩
          MetricsState.empty).2.recorder.gauges k ∧
      (run_cycles [(0, ⟨fun _ => .ok 200, fun _ => 10, 3, 4⟩)]
        (Worker.new ⟨[⟨1, "d", "u", 5, false⟩]⟩
          MetricsState.empty)).2.recorder.histograms k =
        (Worker.new ⟨[⟨1, "d", "u", 5, false⟩]⟩
          MetricsState.empty).2.recorder.histograms k)) :=
  ⟨by decide,
    disabled_monitor_never_probed ⟨[⟨1, "d", "u", 5, false⟩]⟩ 1
      [(0, ⟨fun _ => .ok 200, fun _ => 10, 3, 4⟩)] (by decide)⟩
